import Mathlib

/-!
Verification of the startup and coordination layer of the external-provisioner
sidecar (cmd/csi-provisioner/csi-provisioner.go).  The `main` function is a
straight-line bootstrap: flag/environment validation, gRPC probing of the CSI
driver (with a reconnect path for migrated in-tree plugins), capability-gated
construction of listers and sub-controllers, an optional capacity controller
with owner-reference resolution, the diagnostic HTTP server, and finally either
a direct invocation of the `run` closure or a leader-election-gated one.

We embed `main` as a deterministic interpreter over
  - `Flags`: the command-line flags that influence control flow,
  - `Env`:   the environment variables read by `main`,
  - `World`: the outcome of every external call (gRPC, API server, election),
producing the ordered list of observable `Event`s together with the assembled
`FinalState` (`none` when the process exits before reaching a steady state).
Each stage function corresponds to a contiguous region of the source file.
-/

namespace Provisioner

/-- Owner reference recorded on CSIStorageCapacity objects
(result of `owner.Lookup`, csi-provisioner.go:413). -/
structure OwnerReference where
  apiVersion : String
  kind : String
  name : String
  deriving DecidableEq, Repr

/-- Reasons for a fatal exit (`klog.Fatal*` / `os.Exit(1)` sites in `main`). -/
inductive FatalReason where
  | featureGates
  | nodeNameMissing
  | bothEndpoints
  | config
  | client
  | snapClient
  | serverVersion
  | connect
  | probe
  | driverName
  | inTreeName
  | connect2
  | probe2
  | caps
  | nodeInfo
  | namespaceMissing
  | podNameMissing
  | ownerLookup
  | cacheSync
  | leClient
  | leRun
  deriving DecidableEq, Repr

/-- Observable events of the bootstrap, in program order. -/
inductive Event where
  | connect
  | probe
  | getDriverName
  | getDriverCapabilities
  | getNodeInfo
  | recreateMetricsManager
  | closeConn
  | newCSIProvisioner
  | readPodName
  | ownerLookup (level : Int)
  | startTopologyWorker (live : Bool)
  | startHTTPServer
  | prepareHealthCheck
  | factoryStart
  | factoryForNamespaceStart
  | waitForCacheSync (ok : Bool)
  | runCapacityController
  | runClaimController
  | runProvisionController
  | leRun
  | exitZero
  | fatal (reason : FatalReason)
  deriving DecidableEq, Repr

/-- The command-line flags of `main` that influence its control flow. -/
structure Flags where
  enableNodeDeployment : Bool
  showVersion : Bool
  metricsAddress : String
  httpEndpoint : String
  enableCapacity : Bool
  capacityOwnerrefLevel : Int
  enableLeaderElection : Bool
  deriving DecidableEq, Repr

/-- Environment variables read by `main`. -/
structure Env where
  nodeName : String
  namespaceEnv : String
  podName : String
  deriving DecidableEq, Repr

/-- Oracle for every external interaction: whether each API/gRPC call
succeeds and what capability answers the driver gives. -/
structure World where
  featureGatesOk : Bool
  configOk : Bool
  clientsetOk : Bool
  snapClientOk : Bool
  serverVersionOk : Bool
  connectOk : Bool
  probeOk : Bool
  driverName : Option String
  migrated : Bool
  inTreeNameResult : Option String
  connect2Ok : Bool
  probe2Ok : Bool
  capsOk : Bool
  supportsTopology : Bool
  supportsPublishUnpublish : Bool
  nodeInfoOk : Bool
  ownerLookupResult : Option OwnerReference
  cacheSync : List Bool
  leClientsetOk : Bool
  leGrantsLeadership : Bool
  leRunOk : Bool
  deriving DecidableEq, Repr

/-- The assembled state reached when bootstrap completes without a fatal exit. -/
structure FinalState where
  vaListerCreated : Bool
  nodeListerCreated : Bool
  csiNodeListerCreated : Bool
  ownerRef : Option OwnerReference
  capacityControllerCreated : Bool
  deriving DecidableEq, Repr

/-- The `run` closure (csi-provisioner.go:527-548): start the shared factory
(and the namespaced factory when the capacity controller exists), wait for
every informer cache to sync, fatal on any failure, then start the capacity
controller (if built), the cloning-protection controller and the provision
controller.  Returns the events and whether the closure survived the sync. -/
def runBody (cap : Bool) (w : World) : List Event × Bool :=
  if w.cacheSync.all id = true then
    ([Event.factoryStart]
      ++ (if cap = true then [Event.factoryForNamespaceStart] else [])
      ++ [Event.waitForCacheSync true]
      ++ (if cap = true then [Event.runCapacityController] else [])
      ++ [Event.runClaimController, Event.runProvisionController], true)
  else
    ([Event.factoryStart]
      ++ (if cap = true then [Event.factoryForNamespaceStart] else [])
      ++ [Event.waitForCacheSync false, Event.fatal .cacheSync], false)

/-- Leader-election coordination (csi-provisioner.go:550-575): without leader
election, `run` is called directly; with it, a leader-election clientset is
created (fatal on error), the health check is registered only when
`--http-endpoint` is set, and `run` is invoked only by the election primitive
once leadership is granted; an error from `le.Run` is fatal.  Returns only the
events this stage produces. -/
def stageCoordinate (f : Flags) (w : World) (s : FinalState) :
    List Event × Option FinalState :=
  if f.enableLeaderElection = false then
    let r := runBody s.capacityControllerCreated w
    (r.1, if r.2 then some s else none)
  else
    if w.leClientsetOk = false then ([Event.fatal .leClient], none)
    else
      let hc := if f.httpEndpoint ≠ "" then [Event.prepareHealthCheck] else []
      if w.leGrantsLeadership = true then
        let r := runBody s.capacityControllerCreated w
        if r.2 = false then (hc ++ [Event.leRun] ++ r.1, none)
        else if w.leRunOk = false then
          (hc ++ [Event.leRun] ++ r.1 ++ [Event.fatal .leRun], none)
        else (hc ++ [Event.leRun] ++ r.1, some s)
      else
        if w.leRunOk = false then (hc ++ [Event.leRun, Event.fatal .leRun], none)
        else (hc ++ [Event.leRun], some s)

/-- HTTP diagnostic server (csi-provisioner.go:503-525): started whenever
`addr` (the non-deprecated or deprecated endpoint flag) is non-empty. -/
def stageHTTP (f : Flags) (w : World) (s : FinalState) :
    List Event × Option FinalState :=
  let addr := if f.metricsAddress = "" then f.httpEndpoint else f.metricsAddress
  let r := stageCoordinate f w s
  ((if addr = "" then [] else [Event.startHTTPServer]) ++ r.1, r.2)

/-- Tail of the capacity block (csi-provisioner.go:425-484): build the
topology informer (live NodeTopology when node deployment is off, fixed
otherwise), start its worker, and build the capacity controller. -/
def stageCapacityRest (f : Flags) (w : World) (s : FinalState) :
    List Event × Option FinalState :=
  let r := stageHTTP f w s
  ([Event.startTopologyWorker (!f.enableNodeDeployment)] ++ r.1, r.2)

/-- Capacity block (csi-provisioner.go:400-484): only when `--enable-capacity`
is set; requires NAMESPACE; for a non-negative ownerref level reads POD_NAME
(fatal when empty) and performs `owner.Lookup` (fatal on error); a negative
level skips both and leaves the owner reference nil. -/
def stageCapacity (f : Flags) (e : Env) (w : World) (s : FinalState) :
    List Event × Option FinalState :=
  if f.enableCapacity = false then stageHTTP f w s
  else if e.namespaceEnv = "" then ([Event.fatal .namespaceMissing], none)
  else if 0 ≤ f.capacityOwnerrefLevel then
    if e.podName = "" then ([Event.readPodName, Event.fatal .podNameMissing], none)
    else if w.ownerLookupResult.isSome = true then
      let r := stageCapacityRest f w
        { s with ownerRef := w.ownerLookupResult, capacityControllerCreated := true }
      ([Event.readPodName, Event.ownerLookup f.capacityOwnerrefLevel] ++ r.1, r.2)
    else
      ([Event.readPodName, Event.ownerLookup f.capacityOwnerrefLevel,
        Event.fatal .ownerLookup], none)
  else
    stageCapacityRest f w { s with capacityControllerCreated := true }

/-- The state of the listers and controllers right after lister creation
(csi-provisioner.go:279-349): the VolumeAttachment lister exists iff the
driver reports PUBLISH_UNPUBLISH_VOLUME; node/CSINode listers exist iff the
plugin capabilities include topology support. -/
def initialState (w : World) : FinalState :=
  { vaListerCreated := w.supportsPublishUnpublish
    nodeListerCreated := w.supportsTopology
    csiNodeListerCreated := w.supportsTopology
    ownerRef := none
    capacityControllerCreated := false }

/-- Lister and provisioner assembly (csi-provisioner.go:279-398): the
VolumeAttachment lister exists iff the driver reports
PUBLISH_UNPUBLISH_VOLUME; node/CSINode listers exist iff the plugin
capabilities include topology support; `ctrl.NewCSIProvisioner` has no error
return and always succeeds. -/
def mainAssemble (f : Flags) (e : Env) (w : World) :
    List Event × Option FinalState :=
  let r := stageCapacity f e w (initialState w)
  ([Event.newCSIProvisioner] ++ r.1, r.2)

/-- Capability query and node-deployment info (csi-provisioner.go:258-301):
`GetDriverCapabilities` is fatal on error; with `--node-deployment`,
`GetNodeInfo` is called and fatal on error. -/
def mainAfterMigration (f : Flags) (e : Env) (w : World) :
    List Event × Option FinalState :=
  if w.capsOk = false then ([Event.getDriverCapabilities, Event.fatal .caps], none)
  else if f.enableNodeDeployment = true then
    if w.nodeInfoOk = false then
      ([Event.getDriverCapabilities, Event.getNodeInfo, Event.fatal .nodeInfo], none)
    else
      let r := mainAssemble f e w
      ([Event.getDriverCapabilities, Event.getNodeInfo] ++ r.1, r.2)
  else
    let r := mainAssemble f e w
    ([Event.getDriverCapabilities] ++ r.1, r.2)

/-- Migration branch (csi-provisioner.go:215-242): when the probed name is a
migrated CSI driver, fetch the in-tree name (fatal on error), rebuild the
metrics manager with the migrated label, reconnect (exit on error), close the
original connection, and probe again (exit on error). -/
def mainAfterName (f : Flags) (e : Env) (w : World) :
    List Event × Option FinalState :=
  if w.migrated = true then
    if w.inTreeNameResult.isNone = true then ([Event.fatal .inTreeName], none)
    else if w.connect2Ok = false then
      ([Event.recreateMetricsManager, Event.connect, Event.fatal .connect2], none)
    else if w.probe2Ok = false then
      ([Event.recreateMetricsManager, Event.connect, Event.closeConn, Event.probe,
        Event.fatal .probe2], none)
    else
      let r := mainAfterMigration f e w
      ([Event.recreateMetricsManager, Event.connect, Event.closeConn, Event.probe]
        ++ r.1, r.2)
  else mainAfterMigration f e w

/-- Connection, probe and driver-name autodetection
(csi-provisioner.go:195-213): `Connect`/`Probe` errors exit the process, a
`GetDriverName` error is fatal; on success the migration branch follows. -/
def mainConnect (f : Flags) (e : Env) (w : World) : List Event × Option FinalState :=
  if w.connectOk = false then ([Event.connect, Event.fatal .connect], none)
  else if w.probeOk = false then ([Event.connect, Event.probe, Event.fatal .probe], none)
  else if w.driverName.isNone = true then
    ([Event.connect, Event.probe, Event.getDriverName, Event.fatal .driverName], none)
  else
    let r := mainAfterName f e w
    ([Event.connect, Event.probe, Event.getDriverName] ++ r.1, r.2)

/-- The `main` function (csi-provisioner.go:113-576) as a trace-producing
interpreter: feature-gate parsing, NODE_NAME check for node deployment,
`--version`, mutually exclusive endpoint flags, config/client construction,
then connect + probe + driver-name query and the later stages. -/
def mainGo (f : Flags) (e : Env) (w : World) : List Event × Option FinalState :=
  if w.featureGatesOk = false then ([Event.fatal .featureGates], none)
  else if f.enableNodeDeployment = true ∧ e.nodeName = "" then
    ([Event.fatal .nodeNameMissing], none)
  else if f.showVersion = true then ([Event.exitZero], none)
  else if f.metricsAddress ≠ "" ∧ f.httpEndpoint ≠ "" then
    ([Event.fatal .bothEndpoints], none)
  else if w.configOk = false then ([Event.fatal .config], none)
  else if w.clientsetOk = false then ([Event.fatal .client], none)
  else if w.snapClientOk = false then ([Event.fatal .snapClient], none)
  else if w.serverVersionOk = false then ([Event.fatal .serverVersion], none)
  else mainConnect f e w

/-- Events that start a sub-controller's run loop inside the `run` closure. -/
def Event.isControllerRun : Event → Bool
  | .runCapacityController => true
  | .runClaimController => true
  | .runProvisionController => true
  | _ => false

/-- RPC calls to the CSI backend. -/
def Event.isRpc : Event → Bool
  | .probe => true
  | .getDriverName => true
  | .getDriverCapabilities => true
  | .getNodeInfo => true
  | _ => false

/-- Owner lookups (any level). -/
def Event.isOwnerLookup : Event → Bool
  | .ownerLookup _ => true
  | _ => false

/-- Fatal-exit events. -/
def Event.isFatal : Event → Bool
  | .fatal _ => true
  | _ => false

/-- A successful cache-sync report. -/
def isSyncSuccess : Event → Bool
  | .waitForCacheSync b => b
  | _ => false

/-- The hand-off to the leader-election primitive. -/
def isLeRunEvent : Event → Bool
  | .leRun => true
  | _ => false

/-- `gatedAfter marker p t seen = true` iff no event satisfying `p` occurs in
`t` before some event satisfying `marker` has occurred (`seen` carries whether
a marker was already seen). -/
def gatedAfter (marker p : Event → Bool) : List Event → Bool → Bool
  | [], _ => true
  | ev :: rest, seen =>
    if p ev = true ∧ seen = false then false
    else gatedAfter marker p rest (seen || marker ev)

/-- `noneBeforeFatal p t = true` iff no event satisfying `p` occurs strictly
before the first fatal event of `t` (vacuously true without a fatal). -/
def noneBeforeFatal (p : Event → Bool) : List Event → Bool
  | [] => true
  | Event.fatal _ :: _ => true
  | ev :: rest => if p ev then false else noneBeforeFatal p rest

/-- Count of events satisfying `p`. -/
def countEv (p : Event → Bool) : List Event → Nat
  | [] => 0
  | ev :: rest => (if p ev then 1 else 0) + countEv p rest

/-- First gRPC connection established. -/
def Event.isConnect : Event → Bool
  | .connect => true
  | _ => false

/-- Probe calls. -/
def Event.isProbe : Event → Bool
  | .probe => true
  | _ => false

/-- Success of the bootstrap prefix through `GetDriverName`
(csi-provisioner.go:113-213). -/
def ProbeOk (f : Flags) (e : Env) (w : World) : Prop :=
  w.featureGatesOk = true ∧ ¬(f.enableNodeDeployment = true ∧ e.nodeName = "") ∧
  f.showVersion = false ∧ ¬(f.metricsAddress ≠ "" ∧ f.httpEndpoint ≠ "") ∧
  w.configOk = true ∧ w.clientsetOk = true ∧ w.snapClientOk = true ∧
  w.serverVersionOk = true ∧ w.connectOk = true ∧ w.probeOk = true ∧
  w.driverName.isSome = true

/-- Success of the bootstrap through capability query, migration branch and
node-info retrieval (csi-provisioner.go:113-398). -/
def BootOkPre (f : Flags) (e : Env) (w : World) : Prop :=
  ProbeOk f e w ∧
  (w.migrated = true →
    w.inTreeNameResult.isSome = true ∧ w.connect2Ok = true ∧ w.probe2Ok = true) ∧
  w.capsOk = true ∧
  (f.enableNodeDeployment = true → w.nodeInfoOk = true)

/-- Success of the whole bootstrap, including the capacity block when enabled
(csi-provisioner.go:113-500). -/
def BootOk (f : Flags) (e : Env) (w : World) : Prop :=
  BootOkPre f e w ∧
  (f.enableCapacity = true →
    e.namespaceEnv ≠ "" ∧
    (0 ≤ f.capacityOwnerrefLevel →
      e.podName ≠ "" ∧ w.ownerLookupResult.isSome = true))

/-- Success of the entire startup: bootstrap, cache sync and (when enabled)
leader election. -/
def RunOk (f : Flags) (e : Env) (w : World) : Prop :=
  BootOk f e w ∧ w.cacheSync.all id = true ∧
  (f.enableLeaderElection = true →
    w.leClientsetOk = true ∧ w.leGrantsLeadership = true ∧ w.leRunOk = true)

instance (f : Flags) (e : Env) (w : World) : Decidable (ProbeOk f e w) := by
  unfold ProbeOk
  infer_instance

instance (f : Flags) (e : Env) (w : World) : Decidable (BootOkPre f e w) := by
  unfold BootOkPre
  infer_instance

instance (f : Flags) (e : Env) (w : World) : Decidable (BootOk f e w) := by
  unfold BootOk
  infer_instance

instance (f : Flags) (e : Env) (w : World) : Decidable (RunOk f e w) := by
  unfold RunOk
  infer_instance

/-- Backend RPC events emitted before the capability/assembly stages, in
program order (csi-provisioner.go:195-398). -/
def bootEvents (f : Flags) (w : World) : List Event :=
  [Event.connect, Event.probe, Event.getDriverName]
  ++ (if w.migrated = true then
        [Event.recreateMetricsManager, Event.connect, Event.closeConn, Event.probe]
      else [])
  ++ [Event.getDriverCapabilities]
  ++ (if f.enableNodeDeployment = true then [Event.getNodeInfo] else [])
  ++ [Event.newCSIProvisioner]

/-- Events of a successful capacity block (csi-provisioner.go:400-484). -/
def capEvents (f : Flags) : List Event :=
  if f.enableCapacity = true then
    (if 0 ≤ f.capacityOwnerrefLevel then
       [Event.readPodName, Event.ownerLookup f.capacityOwnerrefLevel]
     else [])
    ++ [Event.startTopologyWorker (!f.enableNodeDeployment)]
  else []

/-- Events of the HTTP stage (csi-provisioner.go:503-525). -/
def httpEvents (f : Flags) : List Event :=
  if (if f.metricsAddress = "" then f.httpEndpoint else f.metricsAddress) = "" then []
  else [Event.startHTTPServer]

/-- The state assembled by a successful bootstrap, as a function of the
flags and the backend's answers. -/
def assembledState (f : Flags) (w : World) : FinalState :=
  { vaListerCreated := w.supportsPublishUnpublish
    nodeListerCreated := w.supportsTopology
    csiNodeListerCreated := w.supportsTopology
    ownerRef :=
      if f.enableCapacity = true ∧ 0 ≤ f.capacityOwnerrefLevel then w.ownerLookupResult
      else none
    capacityControllerCreated := f.enableCapacity }

/-! ### Equation and append lemmas for the trace predicates

`simp` must not receive the recursive scan definitions themselves (smart
unfolding would delta-reduce the opaque stage terms), so we state their
equations as constructor-keyed rewrite lemmas. -/

theorem gatedAfter_nil (m p : Event → Bool) (seen : Bool) :
    gatedAfter m p [] seen = true := rfl

theorem gatedAfter_cons (m p : Event → Bool) (ev : Event) (t : List Event) (seen : Bool) :
    gatedAfter m p (ev :: t) seen =
      if p ev = true ∧ seen = false then false
      else gatedAfter m p t (seen || m ev) := rfl

theorem gatedAfter_append (m p : Event → Bool) (a b : List Event) (seen : Bool) :
    gatedAfter m p (a ++ b) seen =
      (gatedAfter m p a seen && gatedAfter m p b (seen || a.any m)) := by
  induction a generalizing seen with
  | nil => simp [gatedAfter_nil]
  | cons ev rest ih =>
    by_cases h : p ev = true ∧ seen = false
    · simp [gatedAfter_cons, h]
    · simp [gatedAfter_cons, h, ih, List.any_cons, Bool.or_assoc]

theorem countEv_nil (p : Event → Bool) : countEv p [] = 0 := rfl

theorem countEv_cons (p : Event → Bool) (ev : Event) (t : List Event) :
    countEv p (ev :: t) = (if p ev then 1 else 0) + countEv p t := rfl

theorem countEv_append (p : Event → Bool) (a b : List Event) :
    countEv p (a ++ b) = countEv p a + countEv p b := by
  induction a with
  | nil => simp [countEv_nil]
  | cons ev rest ih => simp [countEv_cons, ih]; omega

theorem countEv_eq_zero {p : Event → Bool} {l : List Event}
    (h : l.all (fun ev => !p ev) = true) : countEv p l = 0 := by
  induction l with
  | nil => rfl
  | cons ev rest ih =>
    simp only [List.all_cons, Bool.and_eq_true, Bool.not_eq_true'] at h
    simp [countEv_cons, h.1, ih h.2]

theorem all_mono {p q : Event → Bool} (h : ∀ ev, p ev = true → q ev = true)
    {l : List Event} (hl : l.all p = true) : l.all q = true := by
  rw [List.all_eq_true] at hl ⊢
  exact fun x hx => h x (hl x hx)

theorem not_mem_of_all {p : Event → Bool} {l : List Event} {ev : Event}
    (hl : l.all p = true) (he : p ev = false) : ev ∉ l := by
  intro hmem
  rw [List.all_eq_true] at hl
  exact absurd (hl ev hmem) (by simp [he])

/-! ### Support lemmas: which events each late stage can emit -/

/-- Events that may appear in the trace of `stageCoordinate` (and `runBody`). -/
def lateEvent : Event → Bool
  | .prepareHealthCheck => true
  | .leRun => true
  | .factoryStart => true
  | .factoryForNamespaceStart => true
  | .waitForCacheSync _ => true
  | .runCapacityController => true
  | .runClaimController => true
  | .runProvisionController => true
  | .fatal _ => true
  | _ => false

/-- Events that may appear in the trace of `stageCapacity` (capacity block,
HTTP stage and coordination). -/
def capEventOk : Event → Bool
  | .readPodName => true
  | .ownerLookup _ => true
  | .startTopologyWorker _ => true
  | .startHTTPServer => true
  | ev => lateEvent ev

/-- POD_NAME reads and owner lookups. -/
def Event.isOwnerEv : Event → Bool
  | .readPodName => true
  | .ownerLookup _ => true
  | _ => false

/-- Events that `runBody` itself can emit. -/
def runEventOk : Event → Bool
  | .factoryStart => true
  | .factoryForNamespaceStart => true
  | .waitForCacheSync _ => true
  | .runCapacityController => true
  | .runClaimController => true
  | .runProvisionController => true
  | .fatal _ => true
  | _ => false

theorem support_runBody (cap : Bool) (w : World) :
    (runBody cap w).1.all runEventOk = true := by
  unfold runBody
  split <;> cases cap <;> simp [runEventOk]

theorem runEventOk_late : ∀ ev, runEventOk ev = true → lateEvent ev = true := by
  intro ev h
  cases ev <;> simp_all [runEventOk, lateEvent]

theorem lateEvent_capOk : ∀ ev, lateEvent ev = true → capEventOk ev = true := by
  intro ev h
  cases ev <;> simp_all [lateEvent, capEventOk]

/-! ### Behaviour of the run closure and the coordination stage -/

theorem gatedAfter_true (m p : Event → Bool) (t : List Event) :
    gatedAfter m p t true = true := by
  induction t with
  | nil => rfl
  | cons ev rest ih => simp [gatedAfter_cons, ih]

theorem gated_of_all_not {p : Event → Bool} {t : List Event}
    (h : t.all (fun ev => !p ev) = true) (m : Event → Bool) (seen : Bool) :
    gatedAfter m p t seen = true := by
  induction t generalizing seen with
  | nil => rfl
  | cons ev rest ih =>
    simp only [List.all_cons, Bool.and_eq_true, Bool.not_eq_true'] at h
    simp [gatedAfter_cons, h.1, ih h.2]

theorem runBody_gated (cap : Bool) (w : World) :
    gatedAfter isSyncSuccess Event.isControllerRun (runBody cap w).1 false = true := by
  unfold runBody
  split <;> cases cap <;>
    simp [gatedAfter_cons, gatedAfter_nil, isSyncSuccess, Event.isControllerRun]

theorem runBody_noctrl_syncfail (cap : Bool) (w : World)
    (h : w.cacheSync.all id = false) :
    (runBody cap w).1.all (fun ev => !ev.isControllerRun) = true := by
  unfold runBody
  simp only [h]
  cases cap <;> simp [Event.isControllerRun]

theorem runBody_waitfalse (cap : Bool) (w : World)
    (h : Event.waitForCacheSync false ∈ (runBody cap w).1) :
    (runBody cap w).2 = false ∧ Event.fatal .cacheSync ∈ (runBody cap w).1 := by
  unfold runBody at h ⊢
  split at h <;> cases cap <;> simp_all

theorem runBody_factoryStart (cap : Bool) (w : World) :
    Event.factoryStart ∈ (runBody cap w).1 := by
  unfold runBody
  split <;> cases cap <;> simp

theorem runBody_success (cap : Bool) (w : World) (h : w.cacheSync.all id = true) :
    (runBody cap w).2 = true := by
  unfold runBody
  simp [h]

theorem runBody_cases (cap : Bool) (w : World) :
    (w.cacheSync.all id = true ∧
      runBody cap w =
        ([Event.factoryStart]
          ++ (if cap = true then [Event.factoryForNamespaceStart] else [])
          ++ [Event.waitForCacheSync true]
          ++ (if cap = true then [Event.runCapacityController] else [])
          ++ [Event.runClaimController, Event.runProvisionController], true)) ∨
    (w.cacheSync.all id = false ∧
      runBody cap w =
        ([Event.factoryStart]
          ++ (if cap = true then [Event.factoryForNamespaceStart] else [])
          ++ [Event.waitForCacheSync false, Event.fatal .cacheSync], false)) := by
  unfold runBody
  split <;> simp_all

theorem stageCoordinate_cases (f : Flags) (w : World) (s : FinalState) :
    (f.enableLeaderElection = false ∧
      stageCoordinate f w s =
        ((runBody s.capacityControllerCreated w).1,
          if (runBody s.capacityControllerCreated w).2 then some s else none)) ∨
    (f.enableLeaderElection = true ∧ w.leClientsetOk = false ∧
      stageCoordinate f w s = ([Event.fatal .leClient], none)) ∨
    (f.enableLeaderElection = true ∧ w.leClientsetOk = true ∧
      w.leGrantsLeadership = true ∧
      stageCoordinate f w s =
        ((if f.httpEndpoint ≠ "" then [Event.prepareHealthCheck] else []) ++
           Event.leRun :: ((runBody s.capacityControllerCreated w).1 ++
             (if (runBody s.capacityControllerCreated w).2 = false then []
              else if w.leRunOk = false then [Event.fatal .leRun] else [])),
          if (runBody s.capacityControllerCreated w).2 = false then none
          else if w.leRunOk = false then none else some s)) ∨
    (f.enableLeaderElection = true ∧ w.leClientsetOk = true ∧
      w.leGrantsLeadership = false ∧
      stageCoordinate f w s =
        ((if f.httpEndpoint ≠ "" then [Event.prepareHealthCheck] else []) ++
           Event.leRun :: (if w.leRunOk = false then [Event.fatal .leRun] else []),
          if w.leRunOk = false then none else some s)) := by
  unfold stageCoordinate
  dsimp only
  repeat' split
  all_goals simp_all

theorem support_stageCoordinate (f : Flags) (w : World) (s : FinalState) :
    (stageCoordinate f w s).1.all lateEvent = true := by
  have hrb := all_mono runEventOk_late (support_runBody s.capacityControllerCreated w)
  rcases stageCoordinate_cases f w s with ⟨hl, hsc⟩ | ⟨hl, hcl, hsc⟩ |
    ⟨hl, hcl, hg, hsc⟩ | ⟨hl, hcl, hg, hsc⟩ <;> rw [hsc]
  · exact hrb
  · simp [lateEvent]
  all_goals
    by_cases hhe : f.httpEndpoint = "" <;>
      by_cases hlr : w.leRunOk = false <;>
      rcases runBody_cases s.capacityControllerCreated w with ⟨hsync, hrb2⟩ | ⟨hsync, hrb2⟩ <;>
      by_cases hcap : s.capacityControllerCreated = true <;>
      simp_all [List.all_append, lateEvent]

theorem sc_leGated (f : Flags) (w : World) (s : FinalState)
    (hle : f.enableLeaderElection = true) :
    gatedAfter isLeRunEvent Event.isControllerRun (stageCoordinate f w s).1 false = true := by
  rcases stageCoordinate_cases f w s with ⟨hl, hsc⟩ | ⟨hl, hcl, hsc⟩ |
    ⟨hl, hcl, hg, hsc⟩ | ⟨hl, hcl, hg, hsc⟩ <;> rw [hsc]
  · rw [hl] at hle; cases hle
  · simp [gatedAfter_cons, gatedAfter_nil, isLeRunEvent, Event.isControllerRun]
  all_goals
    by_cases hhe : f.httpEndpoint = "" <;>
      simp [hhe, gatedAfter_cons, gatedAfter_nil, gatedAfter_append, gatedAfter_true,
        isLeRunEvent, Event.isControllerRun]

theorem sc_noctrl_syncfail (f : Flags) (w : World) (s : FinalState)
    (h : w.cacheSync.all id = false) :
    (stageCoordinate f w s).1.all (fun ev => !ev.isControllerRun) = true := by
  rcases runBody_cases s.capacityControllerCreated w with ⟨hsync, hrb⟩ | ⟨hsync, hrb⟩
  · rw [h] at hsync; cases hsync
  rcases stageCoordinate_cases f w s with ⟨hl, hsc⟩ | ⟨hl, hcl, hsc⟩ |
    ⟨hl, hcl, hg, hsc⟩ | ⟨hl, hcl, hg, hsc⟩ <;> rw [hsc]
  all_goals
    simp [hrb, List.all_append, Event.isControllerRun]

theorem sc_noctrl_nogrant (f : Flags) (w : World) (s : FinalState)
    (hle : f.enableLeaderElection = true) (hg : w.leGrantsLeadership = false) :
    (stageCoordinate f w s).1.all (fun ev => !ev.isControllerRun) = true := by
  rcases stageCoordinate_cases f w s with ⟨hl, hsc⟩ | ⟨hl, hcl, hsc⟩ |
    ⟨hl, hcl, hg2, hsc⟩ | ⟨hl, hcl, hg2, hsc⟩ <;> rw [hsc]
  · rw [hl] at hle; cases hle
  · simp [Event.isControllerRun]
  · rw [hg] at hg2; cases hg2
  · simp [List.all_append, Event.isControllerRun]

theorem sc_waitfalse (f : Flags) (w : World) (s : FinalState)
    (h : Event.waitForCacheSync false ∈ (stageCoordinate f w s).1) :
    Event.fatal .cacheSync ∈ (stageCoordinate f w s).1 ∧
      (stageCoordinate f w s).2 = none := by
  rcases runBody_cases s.capacityControllerCreated w with ⟨hsync, hrb⟩ | ⟨hsync, hrb⟩ <;>
    rcases stageCoordinate_cases f w s with ⟨hl, hsc⟩ | ⟨hl, hcl, hsc⟩ |
      ⟨hl, hcl, hg, hsc⟩ | ⟨hl, hcl, hg, hsc⟩ <;>
    rw [hsc] at h ⊢ <;>
    by_cases hcap : s.capacityControllerCreated = true <;>
    simp_all [List.mem_append]

theorem sc_prepHC_not (f : Flags) (w : World) (s : FinalState)
    (h : f.httpEndpoint = "" ∨ f.enableLeaderElection = false) :
    Event.prepareHealthCheck ∉ (stageCoordinate f w s).1 := by
  have hsup := support_stageCoordinate f w s
  rcases stageCoordinate_cases f w s with ⟨hl, hsc⟩ | ⟨hl, hcl, hsc⟩ |
    ⟨hl, hcl, hg, hsc⟩ | ⟨hl, hcl, hg, hsc⟩ <;> rw [hsc] <;>
    rcases h with h | h
  · rcases runBody_cases s.capacityControllerCreated w with ⟨hsync, hrb⟩ | ⟨hsync, hrb⟩ <;>
      by_cases hcap : s.capacityControllerCreated = true <;>
      simp_all
  · rcases runBody_cases s.capacityControllerCreated w with ⟨hsync, hrb⟩ | ⟨hsync, hrb⟩ <;>
      by_cases hcap : s.capacityControllerCreated = true <;>
      simp_all
  · simp
  · rw [hl] at h; cases h
  · rcases runBody_cases s.capacityControllerCreated w with ⟨hsync, hrb⟩ | ⟨hsync, hrb⟩ <;>
      by_cases hcap : s.capacityControllerCreated = true <;>
      simp_all [List.mem_append]
  · rw [hl] at h; cases h
  · simp_all [List.mem_append]
  · rw [hl] at h; cases h

theorem sc_leRun_not (f : Flags) (w : World) (s : FinalState)
    (h : f.enableLeaderElection = false) :
    Event.leRun ∉ (stageCoordinate f w s).1 := by
  have hsup := support_runBody s.capacityControllerCreated w
  rcases stageCoordinate_cases f w s with ⟨hl, hsc⟩ | ⟨hl, hcl, hsc⟩ |
    ⟨hl, hcl, hg, hsc⟩ | ⟨hl, hcl, hg, hsc⟩ <;> rw [hsc]
  · exact fun hmem =>
      absurd (List.all_eq_true.mp hsup _ (by simpa using hmem)) (by simp [runEventOk])
  all_goals rw [hl] at h; cases h

theorem sc_leClient_fatal (f : Flags) (w : World) (s : FinalState)
    (hle : f.enableLeaderElection = true) (hc : w.leClientsetOk = false) :
    stageCoordinate f w s = ([Event.fatal .leClient], none) := by
  unfold stageCoordinate
  rw [hle, hc]
  simp

theorem sc_leRun_mem (f : Flags) (w : World) (s : FinalState)
    (hle : f.enableLeaderElection = true) (hc : w.leClientsetOk = true) :
    Event.leRun ∈ (stageCoordinate f w s).1 := by
  rcases stageCoordinate_cases f w s with ⟨hl, hsc⟩ | ⟨hl, hcl, hsc⟩ |
    ⟨hl, hcl, hg, hsc⟩ | ⟨hl, hcl, hg, hsc⟩ <;> rw [hsc]
  · rw [hl] at hle; cases hle
  · rw [hc] at hcl; cases hcl
  all_goals simp [List.mem_append]

theorem sc_factory (f : Flags) (w : World) (s : FinalState)
    (h : f.enableLeaderElection = false) :
    Event.factoryStart ∈ (stageCoordinate f w s).1 := by
  unfold stageCoordinate
  rw [h]
  dsimp only
  exact runBody_factoryStart s.capacityControllerCreated w

theorem sc_factory_granted (f : Flags) (w : World) (s : FinalState)
    (hle : f.enableLeaderElection = true) (hc : w.leClientsetOk = true)
    (hg : w.leGrantsLeadership = true) :
    Event.factoryStart ∈ (stageCoordinate f w s).1 := by
  have hf := runBody_factoryStart s.capacityControllerCreated w
  rcases stageCoordinate_cases f w s with ⟨hl, hsc⟩ | ⟨hl, hcl, hsc⟩ |
    ⟨hl, hcl, hg2, hsc⟩ | ⟨hl, hcl, hg2, hsc⟩ <;> rw [hsc]
  · rw [hl] at hle; cases hle
  · rw [hc] at hcl; cases hcl
  · simp [List.mem_append, hf]
  · rw [hg] at hg2; cases hg2

theorem sc_success (f : Flags) (w : World) (s : FinalState)
    (hsync : w.cacheSync.all id = true)
    (hle : f.enableLeaderElection = true →
      w.leClientsetOk = true ∧ w.leGrantsLeadership = true ∧ w.leRunOk = true) :
    (stageCoordinate f w s).2 = some s := by
  have hr := runBody_success s.capacityControllerCreated w hsync
  rcases stageCoordinate_cases f w s with ⟨hl, hsc⟩ | ⟨hl, hcl, hsc⟩ |
    ⟨hl, hcl, hg, hsc⟩ | ⟨hl, hcl, hg, hsc⟩ <;> rw [hsc]
  · simp [hr]
  · rcases hle hl with ⟨h1, _⟩; rw [h1] at hcl; cases hcl
  · rcases hle hl with ⟨_, _, h3⟩; simp [hr, h3]
  · rcases hle hl with ⟨_, h2, _⟩; rw [h2] at hg; cases hg

theorem stageCoordinate_gated (f : Flags) (w : World) (s : FinalState) :
    gatedAfter isSyncSuccess Event.isControllerRun (stageCoordinate f w s).1 false = true := by
  have hg := runBody_gated s.capacityControllerCreated w
  rcases stageCoordinate_cases f w s with ⟨hl, hsc⟩ | ⟨hl, hcl, hsc⟩ |
    ⟨hl, hcl, hgr, hsc⟩ | ⟨hl, hcl, hgr, hsc⟩ <;> rw [hsc]
  · exact hg
  · simp [gatedAfter_cons, gatedAfter_nil, isSyncSuccess, Event.isControllerRun]
  · rcases runBody_cases s.capacityControllerCreated w with ⟨hsync, hrb⟩ | ⟨hsync, hrb⟩ <;>
      by_cases hhe : f.httpEndpoint = "" <;>
      by_cases hcap : s.capacityControllerCreated = true <;>
      by_cases hlr : w.leRunOk = false <;>
      simp_all [gatedAfter_cons, gatedAfter_nil, gatedAfter_append, gatedAfter_true,
        isSyncSuccess, Event.isControllerRun]
  · by_cases hhe : f.httpEndpoint = "" <;>
      by_cases hlr : w.leRunOk = false <;>
      simp [hhe, hlr, gatedAfter_cons, gatedAfter_nil, isSyncSuccess,
        Event.isControllerRun]

theorem support_stageCapacity (f : Flags) (e : Env) (w : World) (s : FinalState) :
    (stageCapacity f e w s).1.all capEventOk = true := by
  have hco : ∀ s', (stageCoordinate f w s').1.all capEventOk = true := fun s' =>
    all_mono lateEvent_capOk (support_stageCoordinate f w s')
  unfold stageCapacity stageCapacityRest stageHTTP
  dsimp only
  repeat' split
  all_goals
    simp_all [List.all_append, capEventOk, lateEvent]
  all_goals exact hco _

/-! ### Characterization of the assembled final state -/

theorem stageCoordinate_snd (f : Flags) (w : World) (s s' : FinalState)
    (h : (stageCoordinate f w s).2 = some s') : s' = s := by
  unfold stageCoordinate at h
  dsimp only at h
  repeat' split at h
  all_goals simp_all

theorem stageHTTP_snd (f : Flags) (w : World) (s : FinalState) :
    (stageHTTP f w s).2 = (stageCoordinate f w s).2 := rfl

theorem stageCapacityRest_snd (f : Flags) (w : World) (s : FinalState) :
    (stageCapacityRest f w s).2 = (stageCoordinate f w s).2 := rfl

theorem mainAssemble_snd (f : Flags) (e : Env) (w : World) :
    (mainAssemble f e w).2 = (stageCapacity f e w (initialState w)).2 := rfl

theorem stageCapacity_snd (f : Flags) (e : Env) (w : World) (s s' : FinalState)
    (h : (stageCapacity f e w s).2 = some s') :
    (f.enableCapacity = false → s' = s) ∧
    (f.enableCapacity = true →
      s'.vaListerCreated = s.vaListerCreated ∧
      s'.nodeListerCreated = s.nodeListerCreated ∧
      s'.csiNodeListerCreated = s.csiNodeListerCreated ∧
      s'.capacityControllerCreated = true ∧
      e.namespaceEnv ≠ "" ∧
      (0 ≤ f.capacityOwnerrefLevel →
        e.podName ≠ "" ∧ w.ownerLookupResult.isSome = true ∧
        s'.ownerRef = w.ownerLookupResult) ∧
      (f.capacityOwnerrefLevel < 0 → s'.ownerRef = s.ownerRef)) := by
  unfold stageCapacity at h
  repeat' split at h
  all_goals try rw [stageHTTP_snd] at h
  all_goals try rw [stageCapacityRest_snd] at h
  all_goals
    try (have hs := stageCoordinate_snd _ _ _ _ h
         subst hs)
  all_goals simp_all

theorem mainAfterMigration_snd (f : Flags) (e : Env) (w : World) (s' : FinalState)
    (h : (mainAfterMigration f e w).2 = some s') :
    (stageCapacity f e w (initialState w)).2 = some s' := by
  unfold mainAfterMigration at h
  repeat' split at h
  all_goals try dsimp only at h
  all_goals
    first
      | exact h ▸ mainAssemble_snd f e w
      | simp_all

theorem mainAfterName_snd (f : Flags) (e : Env) (w : World) (s' : FinalState)
    (h : (mainAfterName f e w).2 = some s') :
    (stageCapacity f e w (initialState w)).2 = some s' := by
  unfold mainAfterName at h
  repeat' split at h
  all_goals try dsimp only at h
  all_goals
    first
      | exact mainAfterMigration_snd f e w s' h
      | simp_all

theorem mainConnect_snd (f : Flags) (e : Env) (w : World) (s' : FinalState)
    (h : (mainConnect f e w).2 = some s') :
    (stageCapacity f e w (initialState w)).2 = some s' := by
  unfold mainConnect at h
  repeat' split at h
  all_goals try dsimp only at h
  all_goals
    first
      | exact mainAfterName_snd f e w s' h
      | simp_all

theorem mainGo_snd (f : Flags) (e : Env) (w : World) (s' : FinalState)
    (h : (mainGo f e w).2 = some s') :
    (stageCapacity f e w (initialState w)).2 = some s' := by
  unfold mainGo at h
  repeat' split at h
  all_goals
    first
      | exact mainConnect_snd f e w s' h
      | simp_all

theorem mainGo_final (f : Flags) (e : Env) (w : World) (s' : FinalState)
    (h : (mainGo f e w).2 = some s') :
    s'.vaListerCreated = w.supportsPublishUnpublish ∧
    s'.nodeListerCreated = w.supportsTopology ∧
    s'.csiNodeListerCreated = w.supportsTopology ∧
    s'.capacityControllerCreated = f.enableCapacity ∧
    (f.enableCapacity = true →
      e.namespaceEnv ≠ "" ∧
      (0 ≤ f.capacityOwnerrefLevel →
        e.podName ≠ "" ∧ w.ownerLookupResult.isSome = true ∧
        s'.ownerRef = w.ownerLookupResult)) ∧
    ((f.enableCapacity = false ∨ f.capacityOwnerrefLevel < 0) → s'.ownerRef = none) := by
  have hc := stageCapacity_snd f e w (initialState w) s' (mainGo_snd f e w s' h)
  rcases hc with ⟨hfalse, htrue⟩
  cases hcap : f.enableCapacity with
  | false =>
    have hss := hfalse hcap
    subst hss
    simp_all [initialState]
  | true =>
    obtain ⟨hva, hnode, hcsi, hcc, hns, hpos, hneg⟩ := htrue hcap
    refine ⟨hva.trans ?_, hnode.trans ?_, hcsi.trans ?_, ?_, ?_, ?_⟩ <;>
      simp_all [initialState]

/-! ### Decomposition of every path of `mainGo` into a bootstrap prefix and an
optional coordination suffix -/

/-- Events that can occur before the `run` closure and the election hand-off. -/
def bootOnly : Event → Bool
  | .prepareHealthCheck => false
  | .leRun => false
  | .factoryStart => false
  | .factoryForNamespaceStart => false
  | .waitForCacheSync _ => false
  | .runCapacityController => false
  | .runClaimController => false
  | .runProvisionController => false
  | _ => true

/-- Conditions satisfied by every bootstrap prefix. -/
def PrefixOk (f : Flags) (t1 : List Event) : Prop :=
  t1.all bootOnly = true ∧
  (f.metricsAddress = "" ∧ f.httpEndpoint = "" → Event.startHTTPServer ∉ t1) ∧
  (f.capacityOwnerrefLevel < 0 → t1.all (fun ev => !ev.isOwnerEv) = true)

/-- The tail of a path: either the process already exited, or coordination runs
on a state whose capacity controller flag matches `--enable-capacity` and whose
capacity preconditions were checked. -/
def RestCond (f : Flags) (e : Env) (w : World) (rest : List Event × Option FinalState) :
    Prop :=
  rest = ([], none) ∨
  ∃ s, rest = stageCoordinate f w s ∧
    s.capacityControllerCreated = f.enableCapacity ∧
    (f.enableCapacity = true →
      e.namespaceEnv ≠ "" ∧
      (0 ≤ f.capacityOwnerrefLevel →
        e.podName ≠ "" ∧ w.ownerLookupResult.isSome = true))

theorem PrefixOk_cons {f : Flags} {t1 : List Event} {ev : Event}
    (h : bootOnly ev = true) (hh : Event.startHTTPServer ≠ ev)
    (ho : ev.isOwnerEv = false) (hp : PrefixOk f t1) : PrefixOk f (ev :: t1) := by
  obtain ⟨h1, h2, h3⟩ := hp
  refine ⟨?_, ?_, ?_⟩
  · simp [List.all_cons, h, h1]
  · intro hc hmem
    rcases List.mem_cons.mp hmem with hx | hx
    · exact hh hx
    · exact h2 hc hx
  · intro hc
    simp [List.all_cons, ho, h3 hc]

theorem stageCapacity_paths (f : Flags) (e : Env) (w : World) (s : FinalState)
    (hscc : s.capacityControllerCreated = false) :
    ∃ t1 rest, stageCapacity f e w s = (t1 ++ rest.1, rest.2) ∧
      PrefixOk f t1 ∧ RestCond f e w rest := by
  have hcpT : f.enableCapacity = false ∨ f.enableCapacity = true := by
    cases f.enableCapacity <;> simp
  by_cases hcp : f.enableCapacity = false
  · refine ⟨(if (if f.metricsAddress = "" then f.httpEndpoint else f.metricsAddress) = ""
        then [] else [Event.startHTTPServer]), stageCoordinate f w s, ?_, ?_, ?_⟩
    · unfold stageCapacity stageHTTP
      rw [if_pos hcp]
    · refine ⟨?_, ?_, ?_⟩
      · by_cases hadr : (if f.metricsAddress = "" then f.httpEndpoint
            else f.metricsAddress) = "" <;> simp [hadr, bootOnly]
      · intro ⟨h1, h2⟩
        simp [h1, h2]
      · intro hc
        by_cases hadr : (if f.metricsAddress = "" then f.httpEndpoint
            else f.metricsAddress) = "" <;> simp [hadr, Event.isOwnerEv]
    · exact Or.inr ⟨s, rfl, by rw [hscc]; exact (eq_comm.mp hcp),
        fun hc => absurd hc (by simp [hcp])⟩
  · have hcp2 : f.enableCapacity = true := hcpT.resolve_left hcp
    by_cases hns : e.namespaceEnv = ""
    · refine ⟨[Event.fatal .namespaceMissing], ([], none), ?_, ?_, Or.inl rfl⟩
      · unfold stageCapacity
        rw [if_neg hcp, if_pos hns]
        rfl
      · exact ⟨by simp [bootOnly], by simp, by simp [Event.isOwnerEv]⟩
    · by_cases hlv : 0 ≤ f.capacityOwnerrefLevel
      · by_cases hpod : e.podName = ""
        · refine ⟨[Event.readPodName, Event.fatal .podNameMissing], ([], none),
            ?_, ?_, Or.inl rfl⟩
          · unfold stageCapacity
            rw [if_neg hcp, if_neg hns, if_pos hlv, if_pos hpod]
            rfl
          · exact ⟨by simp [bootOnly], by simp,
              fun hc => absurd hlv (by omega)⟩
        · by_cases hlook : w.ownerLookupResult.isSome = true
          · refine ⟨Event.readPodName :: Event.ownerLookup f.capacityOwnerrefLevel ::
                Event.startTopologyWorker (!f.enableNodeDeployment) ::
                (if (if f.metricsAddress = "" then f.httpEndpoint
                    else f.metricsAddress) = "" then [] else [Event.startHTTPServer]),
              stageCoordinate f w
                { s with
                    ownerRef := w.ownerLookupResult
                    capacityControllerCreated := true }, ?_, ?_, ?_⟩
            · unfold stageCapacity stageCapacityRest stageHTTP
              rw [if_neg hcp, if_neg hns, if_pos hlv, if_neg hpod, if_pos hlook]
              rfl
            · refine ⟨?_, ?_, fun hc => absurd hlv (by omega)⟩
              · by_cases hadr : (if f.metricsAddress = "" then f.httpEndpoint
                    else f.metricsAddress) = "" <;> simp [hadr, bootOnly]
              · intro ⟨h1, h2⟩
                simp [h1, h2]
            · exact Or.inr ⟨_, rfl, by simp [hcp2],
                fun _ => ⟨hns, fun _ => ⟨hpod, hlook⟩⟩⟩
          · refine ⟨[Event.readPodName, Event.ownerLookup f.capacityOwnerrefLevel,
                Event.fatal .ownerLookup], ([], none), ?_, ?_, Or.inl rfl⟩
            · unfold stageCapacity
              rw [if_neg hcp, if_neg hns, if_pos hlv, if_neg hpod, if_neg hlook]
              rfl
            · exact ⟨by simp [bootOnly], by simp,
                fun hc => absurd hlv (by omega)⟩
      · refine ⟨Event.startTopologyWorker (!f.enableNodeDeployment) ::
            (if (if f.metricsAddress = "" then f.httpEndpoint
                else f.metricsAddress) = "" then [] else [Event.startHTTPServer]),
          stageCoordinate f w { s with capacityControllerCreated := true },
          ?_, ?_, ?_⟩
        · unfold stageCapacity stageCapacityRest stageHTTP
          rw [if_neg hcp, if_neg hns, if_neg hlv]
          rfl
        · refine ⟨?_, ?_, ?_⟩
          · by_cases hadr : (if f.metricsAddress = "" then f.httpEndpoint
                else f.metricsAddress) = "" <;> simp [hadr, bootOnly]
          · intro ⟨h1, h2⟩
            simp [h1, h2]
          · intro hc
            by_cases hadr : (if f.metricsAddress = "" then f.httpEndpoint
                else f.metricsAddress) = "" <;> simp [hadr, Event.isOwnerEv]
        · exact Or.inr ⟨_, rfl, by simp [hcp2],
            fun _ => ⟨hns, fun h0 => absurd h0 hlv⟩⟩

theorem mainAssemble_paths (f : Flags) (e : Env) (w : World) :
    ∃ t1 rest, mainAssemble f e w = (t1 ++ rest.1, rest.2) ∧
      PrefixOk f t1 ∧ RestCond f e w rest := by
  obtain ⟨t1, rest, heq, hpre, hrest⟩ := stageCapacity_paths f e w (initialState w) rfl
  refine ⟨Event.newCSIProvisioner :: t1, rest, ?_, ?_, hrest⟩
  · unfold mainAssemble
    rw [heq]
    rfl
  · exact PrefixOk_cons (by simp [bootOnly]) (by simp) (by simp [Event.isOwnerEv]) hpre

theorem mainAfterMigration_paths (f : Flags) (e : Env) (w : World) :
    ∃ t1 rest, mainAfterMigration f e w = (t1 ++ rest.1, rest.2) ∧
      PrefixOk f t1 ∧ RestCond f e w rest := by
  by_cases hcaps : w.capsOk = false
  · refine ⟨[Event.getDriverCapabilities, Event.fatal .caps], ([], none), ?_,
      ⟨by simp [bootOnly], by simp, by simp [Event.isOwnerEv]⟩, Or.inl rfl⟩
    unfold mainAfterMigration
    rw [if_pos hcaps]
    rfl
  · by_cases hnd : f.enableNodeDeployment = true
    · by_cases hni : w.nodeInfoOk = false
      · refine ⟨[Event.getDriverCapabilities, Event.getNodeInfo, Event.fatal .nodeInfo],
          ([], none), ?_,
          ⟨by simp [bootOnly], by simp, by simp [Event.isOwnerEv]⟩, Or.inl rfl⟩
        unfold mainAfterMigration
        rw [if_neg hcaps, if_pos hnd, if_pos hni]
        rfl
      · obtain ⟨t1, rest, heq, hpre, hrest⟩ := mainAssemble_paths f e w
        refine ⟨Event.getDriverCapabilities :: Event.getNodeInfo :: t1, rest, ?_, ?_, hrest⟩
        · unfold mainAfterMigration
          rw [if_neg hcaps, if_pos hnd, if_neg hni, heq]
          rfl
        · exact PrefixOk_cons (by simp [bootOnly]) (by simp) (by simp [Event.isOwnerEv])
            (PrefixOk_cons (by simp [bootOnly]) (by simp) (by simp [Event.isOwnerEv]) hpre)
    · obtain ⟨t1, rest, heq, hpre, hrest⟩ := mainAssemble_paths f e w
      refine ⟨Event.getDriverCapabilities :: t1, rest, ?_, ?_, hrest⟩
      · unfold mainAfterMigration
        rw [if_neg hcaps, if_neg hnd, heq]
        rfl
      · exact PrefixOk_cons (by simp [bootOnly]) (by simp) (by simp [Event.isOwnerEv]) hpre

theorem mainAfterName_paths (f : Flags) (e : Env) (w : World) :
    ∃ t1 rest, mainAfterName f e w = (t1 ++ rest.1, rest.2) ∧
      PrefixOk f t1 ∧ RestCond f e w rest := by
  by_cases hm : w.migrated = true
  · by_cases hit : w.inTreeNameResult.isNone = true
    · refine ⟨[Event.fatal .inTreeName], ([], none), ?_,
        ⟨by simp [bootOnly], by simp, by simp [Event.isOwnerEv]⟩, Or.inl rfl⟩
      unfold mainAfterName
      rw [if_pos hm, if_pos hit]
      rfl
    · by_cases hc2 : w.connect2Ok = false
      · refine ⟨[Event.recreateMetricsManager, Event.connect, Event.fatal .connect2],
          ([], none), ?_,
          ⟨by simp [bootOnly], by simp, by simp [Event.isOwnerEv]⟩, Or.inl rfl⟩
        unfold mainAfterName
        rw [if_pos hm, if_neg hit, if_pos hc2]
        rfl
      · by_cases hp2 : w.probe2Ok = false
        · refine ⟨[Event.recreateMetricsManager, Event.connect, Event.closeConn,
              Event.probe, Event.fatal .probe2], ([], none), ?_,
            ⟨by simp [bootOnly], by simp, by simp [Event.isOwnerEv]⟩, Or.inl rfl⟩
          unfold mainAfterName
          rw [if_pos hm, if_neg hit, if_neg hc2, if_pos hp2]
          rfl
        · obtain ⟨t1, rest, heq, hpre, hrest⟩ := mainAfterMigration_paths f e w
          refine ⟨Event.recreateMetricsManager :: Event.connect :: Event.closeConn ::
              Event.probe :: t1, rest, ?_, ?_, hrest⟩
          · unfold mainAfterName
            rw [if_pos hm, if_neg hit, if_neg hc2, if_neg hp2, heq]
            rfl
          · exact PrefixOk_cons (by simp [bootOnly]) (by simp) (by simp [Event.isOwnerEv])
              (PrefixOk_cons (by simp [bootOnly]) (by simp) (by simp [Event.isOwnerEv])
                (PrefixOk_cons (by simp [bootOnly]) (by simp) (by simp [Event.isOwnerEv])
                  (PrefixOk_cons (by simp [bootOnly]) (by simp)
                    (by simp [Event.isOwnerEv]) hpre)))
  · obtain ⟨t1, rest, heq, hpre, hrest⟩ := mainAfterMigration_paths f e w
    refine ⟨t1, rest, ?_, hpre, hrest⟩
    unfold mainAfterName
    rw [if_neg hm, heq]

theorem mainConnect_paths (f : Flags) (e : Env) (w : World) :
    ∃ t1 rest, mainConnect f e w = (t1 ++ rest.1, rest.2) ∧
      PrefixOk f t1 ∧ RestCond f e w rest := by
  by_cases hc : w.connectOk = false
  · refine ⟨[Event.connect, Event.fatal .connect], ([], none), ?_,
      ⟨by simp [bootOnly], by simp, by simp [Event.isOwnerEv]⟩, Or.inl rfl⟩
    unfold mainConnect
    rw [if_pos hc]
    rfl
  · by_cases hp : w.probeOk = false
    · refine ⟨[Event.connect, Event.probe, Event.fatal .probe], ([], none), ?_,
        ⟨by simp [bootOnly], by simp, by simp [Event.isOwnerEv]⟩, Or.inl rfl⟩
      unfold mainConnect
      rw [if_neg hc, if_pos hp]
      rfl
    · by_cases hd : w.driverName.isNone = true
      · refine ⟨[Event.connect, Event.probe, Event.getDriverName, Event.fatal .driverName],
          ([], none), ?_,
          ⟨by simp [bootOnly], by simp, by simp [Event.isOwnerEv]⟩, Or.inl rfl⟩
        unfold mainConnect
        rw [if_neg hc, if_neg hp, if_pos hd]
        rfl
      · obtain ⟨t1, rest, heq, hpre, hrest⟩ := mainAfterName_paths f e w
        refine ⟨Event.connect :: Event.probe :: Event.getDriverName :: t1, rest,
          ?_, ?_, hrest⟩
        · unfold mainConnect
          rw [if_neg hc, if_neg hp, if_neg hd, heq]
          rfl
        · exact PrefixOk_cons (by simp [bootOnly]) (by simp) (by simp [Event.isOwnerEv])
            (PrefixOk_cons (by simp [bootOnly]) (by simp) (by simp [Event.isOwnerEv])
              (PrefixOk_cons (by simp [bootOnly]) (by simp)
                (by simp [Event.isOwnerEv]) hpre))

theorem mainGo_paths (f : Flags) (e : Env) (w : World) :
    ∃ t1 rest, mainGo f e w = (t1 ++ rest.1, rest.2) ∧
      PrefixOk f t1 ∧ RestCond f e w rest ∧
      (f.metricsAddress ≠ "" ∧ f.httpEndpoint ≠ "" → rest = ([], none)) := by
  by_cases h1 : w.featureGatesOk = false
  · refine ⟨[Event.fatal .featureGates], ([], none), ?_,
      ⟨by simp [bootOnly], by simp, by simp [Event.isOwnerEv]⟩, Or.inl rfl, fun _ => rfl⟩
    unfold mainGo
    rw [if_pos h1]
    rfl
  by_cases h2 : f.enableNodeDeployment = true ∧ e.nodeName = ""
  · refine ⟨[Event.fatal .nodeNameMissing], ([], none), ?_,
      ⟨by simp [bootOnly], by simp, by simp [Event.isOwnerEv]⟩, Or.inl rfl, fun _ => rfl⟩
    unfold mainGo
    rw [if_neg h1, if_pos h2]
    rfl
  by_cases h3 : f.showVersion = true
  · refine ⟨[Event.exitZero], ([], none), ?_,
      ⟨by simp [bootOnly], by simp, by simp [Event.isOwnerEv]⟩, Or.inl rfl, fun _ => rfl⟩
    unfold mainGo
    rw [if_neg h1, if_neg h2, if_pos h3]
    rfl
  by_cases h4 : f.metricsAddress ≠ "" ∧ f.httpEndpoint ≠ ""
  · refine ⟨[Event.fatal .bothEndpoints], ([], none), ?_,
      ⟨by simp [bootOnly], by simp, by simp [Event.isOwnerEv]⟩, Or.inl rfl, fun _ => rfl⟩
    unfold mainGo
    rw [if_neg h1, if_neg h2, if_neg h3, if_pos h4]
    rfl
  by_cases h5 : w.configOk = false
  · refine ⟨[Event.fatal .config], ([], none), ?_,
      ⟨by simp [bootOnly], by simp, by simp [Event.isOwnerEv]⟩, Or.inl rfl, fun _ => rfl⟩
    unfold mainGo
    rw [if_neg h1, if_neg h2, if_neg h3, if_neg h4, if_pos h5]
    rfl
  by_cases h6 : w.clientsetOk = false
  · refine ⟨[Event.fatal .client], ([], none), ?_,
      ⟨by simp [bootOnly], by simp, by simp [Event.isOwnerEv]⟩, Or.inl rfl, fun _ => rfl⟩
    unfold mainGo
    rw [if_neg h1, if_neg h2, if_neg h3, if_neg h4, if_neg h5, if_pos h6]
    rfl
  by_cases h7 : w.snapClientOk = false
  · refine ⟨[Event.fatal .snapClient], ([], none), ?_,
      ⟨by simp [bootOnly], by simp, by simp [Event.isOwnerEv]⟩, Or.inl rfl, fun _ => rfl⟩
    unfold mainGo
    rw [if_neg h1, if_neg h2, if_neg h3, if_neg h4, if_neg h5, if_neg h6, if_pos h7]
    rfl
  by_cases h8 : w.serverVersionOk = false
  · refine ⟨[Event.fatal .serverVersion], ([], none), ?_,
      ⟨by simp [bootOnly], by simp, by simp [Event.isOwnerEv]⟩, Or.inl rfl, fun _ => rfl⟩
    unfold mainGo
    rw [if_neg h1, if_neg h2, if_neg h3, if_neg h4, if_neg h5, if_neg h6, if_neg h7,
      if_pos h8]
    rfl
  obtain ⟨t1, rest, heq, hpre, hrest⟩ := mainConnect_paths f e w
  refine ⟨t1, rest, ?_, hpre, hrest, fun hboth => absurd hboth h4⟩
  unfold mainGo
  rw [if_neg h1, if_neg h2, if_neg h3, if_neg h4, if_neg h5, if_neg h6, if_neg h7,
    if_neg h8, heq]

/-- Under a successful bootstrap, the whole trace decomposes into the RPC
prefix, the capacity events, the HTTP event and the coordination stage applied
to the assembled state. -/
theorem mainGo_decomp (f : Flags) (e : Env) (w : World) (hb : BootOk f e w) :
    mainGo f e w =
      (bootEvents f w ++ capEvents f ++ httpEvents f ++
         (stageCoordinate f w (assembledState f w)).1,
       (stageCoordinate f w (assembledState f w)).2) := by
  obtain ⟨⟨⟨hfg, hnn, hsv, hep, hcfg, hcl, hsn, hsrv, hcon, hpr, hdn⟩, hmig, hcaps, hni⟩,
    hcap⟩ := hb
  obtain ⟨nm, hnm⟩ := Option.isSome_iff_exists.mp hdn
  unfold mainGo mainConnect mainAfterName mainAfterMigration mainAssemble stageCapacity
    stageCapacityRest stageHTTP bootEvents capEvents httpEvents assembledState initialState
  cases hm : w.migrated with
  | true =>
    obtain ⟨hit, hc2, hp2⟩ := hmig hm
    obtain ⟨inm, hinm⟩ := Option.isSome_iff_exists.mp hit
    cases hcp : f.enableCapacity with
    | true =>
      obtain ⟨hns, hlvl⟩ := hcap hcp
      by_cases hlv : 0 ≤ f.capacityOwnerrefLevel
      · obtain ⟨hpod, hlook⟩ := hlvl hlv
        cases hnd : f.enableNodeDeployment <;>
          (by_cases hma : f.metricsAddress = "" <;> simp_all [hni])
      · cases hnd : f.enableNodeDeployment <;>
          (by_cases hma : f.metricsAddress = "" <;> simp_all [hni, if_neg hlv])
    | false =>
      cases hnd : f.enableNodeDeployment <;>
        (by_cases hma : f.metricsAddress = "" <;> simp_all [hni])
  | false =>
    cases hcp : f.enableCapacity with
    | true =>
      obtain ⟨hns, hlvl⟩ := hcap hcp
      by_cases hlv : 0 ≤ f.capacityOwnerrefLevel
      · obtain ⟨hpod, hlook⟩ := hlvl hlv
        cases hnd : f.enableNodeDeployment <;>
          (by_cases hma : f.metricsAddress = "" <;> simp_all [hni])
      · cases hnd : f.enableNodeDeployment <;>
          (by_cases hma : f.metricsAddress = "" <;> simp_all [hni, if_neg hlv])
    | false =>
      cases hnd : f.enableNodeDeployment <;>
        (by_cases hma : f.metricsAddress = "" <;> simp_all [hni])


/-! ### Derived facts at the level of `mainGo` -/

theorem bootOnly_noctrl : ∀ ev, bootOnly ev = true → ev.isControllerRun = false := by
  intro ev h
  cases ev <;> simp_all [bootOnly, Event.isControllerRun]

theorem bootOnly_nosync : ∀ ev, bootOnly ev = true → isSyncSuccess ev = false := by
  intro ev h
  cases ev <;> simp_all [bootOnly, isSyncSuccess]

theorem bootOnly_noleRun : ∀ ev, bootOnly ev = true → isLeRunEvent ev = false := by
  intro ev h
  cases ev <;> simp_all [bootOnly, isLeRunEvent]

theorem any_false_of_all {p q : Event → Bool} (hpq : ∀ ev, p ev = true → q ev = false)
    {l : List Event} (hl : l.all p = true) : l.any q = false := by
  rw [List.any_eq_false]
  intro x hx
  simp [hpq x (List.all_eq_true.mp hl x hx)]

theorem gatedAfter_boot_prefix (m p : Event → Bool)
    (hp : ∀ ev, bootOnly ev = true → p ev = false)
    (hm : ∀ ev, bootOnly ev = true → m ev = false)
    {t1 t2 : List Event} (h1 : t1.all bootOnly = true)
    (h2 : gatedAfter m p t2 false = true) :
    gatedAfter m p (t1 ++ t2) false = true := by
  rw [gatedAfter_append, any_false_of_all hm h1]
  have hg : gatedAfter m p t1 false = true :=
    gated_of_all_not (all_mono (fun ev he => by simp [hp ev he]) h1) m false
  simp [hg, h2]

theorem mainGo_gated (f : Flags) (e : Env) (w : World) :
    gatedAfter isSyncSuccess Event.isControllerRun (mainGo f e w).1 false = true := by
  obtain ⟨t1, rest, heq, ⟨hboot, _, _⟩, hrest, _⟩ := mainGo_paths f e w
  rw [heq]
  dsimp only
  refine gatedAfter_boot_prefix _ _ bootOnly_noctrl bootOnly_nosync hboot ?_
  rcases hrest with hrest | ⟨s, hrest, _⟩
  · rw [hrest]
    rfl
  · rw [hrest]
    exact stageCoordinate_gated f w s

theorem mainGo_leGated (f : Flags) (e : Env) (w : World)
    (hle : f.enableLeaderElection = true) :
    gatedAfter isLeRunEvent Event.isControllerRun (mainGo f e w).1 false = true := by
  obtain ⟨t1, rest, heq, ⟨hboot, _, _⟩, hrest, _⟩ := mainGo_paths f e w
  rw [heq]
  dsimp only
  refine gatedAfter_boot_prefix _ _ bootOnly_noctrl bootOnly_noleRun hboot ?_
  rcases hrest with hrest | ⟨s, hrest, _⟩
  · rw [hrest]
    rfl
  · rw [hrest]
    exact sc_leGated f w s hle

theorem mainGo_probeOk (f : Flags) (e : Env) (w : World) (h : ProbeOk f e w) :
    mainGo f e w =
      ([Event.connect, Event.probe, Event.getDriverName] ++ (mainAfterName f e w).1,
       (mainAfterName f e w).2) := by
  obtain ⟨hfg, hnn, hsv, hep, hcfg, hcl, hsn, hsrv, hcon, hpr, hdn⟩ := h
  unfold mainGo mainConnect
  rw [if_neg (by simp [hfg]), if_neg hnn, if_neg (by simp [hsv]), if_neg hep,
    if_neg (by simp [hcfg]), if_neg (by simp [hcl]), if_neg (by simp [hsn]),
    if_neg (by simp [hsrv]), if_neg (by simp [hcon]), if_neg (by simp [hpr]),
    if_neg (by cases hopt : w.driverName <;> simp_all)]

theorem mainGo_both_fatal (f : Flags) (e : Env) (w : World)
    (hfg : w.featureGatesOk = true)
    (hnn : ¬(f.enableNodeDeployment = true ∧ e.nodeName = ""))
    (hsv : f.showVersion = false)
    (hboth : f.metricsAddress ≠ "" ∧ f.httpEndpoint ≠ "") :
    mainGo f e w = ([Event.fatal .bothEndpoints], none) := by
  unfold mainGo
  rw [if_neg (by simp [hfg]), if_neg hnn, if_neg (by simp [hsv]), if_pos hboth]

theorem cp_zero_stageCapacity (f : Flags) (e : Env) (w : World) (s : FinalState) :
    countEv Event.isConnect (stageCapacity f e w s).1 = 0 ∧
    countEv Event.isProbe (stageCapacity f e w s).1 = 0 ∧
    Event.closeConn ∉ (stageCapacity f e w s).1 ∧
    Event.recreateMetricsManager ∉ (stageCapacity f e w s).1 := by
  have hsup := support_stageCapacity f e w s
  refine ⟨countEv_eq_zero (all_mono ?_ hsup), countEv_eq_zero (all_mono ?_ hsup),
    not_mem_of_all hsup (by simp [capEventOk, lateEvent]),
    not_mem_of_all hsup (by simp [capEventOk, lateEvent])⟩
  · intro ev h
    cases ev <;> simp_all [capEventOk, lateEvent, Event.isConnect]
  · intro ev h
    cases ev <;> simp_all [capEventOk, lateEvent, Event.isProbe]

theorem cp_zero_mainAfterMigration (f : Flags) (e : Env) (w : World) :
    countEv Event.isConnect (mainAfterMigration f e w).1 = 0 ∧
    countEv Event.isProbe (mainAfterMigration f e w).1 = 0 ∧
    Event.closeConn ∉ (mainAfterMigration f e w).1 ∧
    Event.recreateMetricsManager ∉ (mainAfterMigration f e w).1 := by
  obtain ⟨hc, hp, hcc, hrm⟩ := cp_zero_stageCapacity f e w (initialState w)
  unfold mainAfterMigration mainAssemble
  dsimp only
  repeat' split
  all_goals
    refine ⟨?_, ?_, ?_, ?_⟩ <;>
      simp [countEv_append, countEv_cons, countEv_nil, Event.isConnect, Event.isProbe,
        hc, hp, hcc, hrm, List.mem_append, List.mem_cons]



/-! ### Concrete configurations used by the witnesses -/

def flagsStd : Flags :=
  { enableNodeDeployment := false, showVersion := false, metricsAddress := "",
    httpEndpoint := ":8080", enableCapacity := true, capacityOwnerrefLevel := 1,
    enableLeaderElection := false }

def envStd : Env :=
  { nodeName := "node-1", namespaceEnv := "kube-system",
    podName := "csi-provisioner-0" }

def worldStd : World :=
  { featureGatesOk := true, configOk := true, clientsetOk := true,
    snapClientOk := true, serverVersionOk := true, connectOk := true,
    probeOk := true, driverName := some "hostpath.csi.k8s.io", migrated := false,
    inTreeNameResult := none, connect2Ok := true, probe2Ok := true, capsOk := true,
    supportsTopology := false, supportsPublishUnpublish := false, nodeInfoOk := true,
    ownerLookupResult := some ⟨"apps/v1", "StatefulSet", "csi-hostpath"⟩,
    cacheSync := [true, true], leClientsetOk := true, leGrantsLeadership := true,
    leRunOk := true }

/-! ### The claims -/

/-- C1: no sub-controller's run loop (capacity, cloning-protection or provision
controller) is invoked before the shared factory's `WaitForCacheSync` has
reported success; if any cache fails to sync, no controller ever starts and the
observed sync failure is followed by a fatal exit with no steady state. -/
theorem c1_controllers_gated_on_cache_sync (f : Flags) (e : Env) (w : World) :
    gatedAfter isSyncSuccess Event.isControllerRun (mainGo f e w).1 false = true ∧
    (w.cacheSync.all id = false →
      (mainGo f e w).1.all (fun ev => !ev.isControllerRun) = true) ∧
    (Event.waitForCacheSync false ∈ (mainGo f e w).1 →
      Event.fatal .cacheSync ∈ (mainGo f e w).1 ∧ (mainGo f e w).2 = none) := by
  obtain ⟨t1, rest, heq, ⟨hboot, hh, ho⟩, hrest, hboth⟩ := mainGo_paths f e w
  refine ⟨mainGo_gated f e w, ?_, ?_⟩
  · intro hsync
    rw [heq]
    dsimp only
    rw [List.all_append]
    refine (Bool.and_eq_true _ _).mpr
      ⟨all_mono (fun ev he => by simp [bootOnly_noctrl ev he]) hboot, ?_⟩
    rcases hrest with hr | ⟨s, hr, _⟩
    · rw [hr]
      rfl
    · rw [hr]
      exact sc_noctrl_syncfail f w s hsync
  · intro hmem
    rw [heq] at hmem ⊢
    dsimp only at hmem ⊢
    rw [List.mem_append] at hmem
    have hnot : Event.waitForCacheSync false ∉ t1 :=
      not_mem_of_all hboot (by simp [bootOnly])
    rcases hmem with hmem | hmem
    · exact absurd hmem hnot
    rcases hrest with hr | ⟨s, hr, _⟩
    · rw [hr] at hmem
      simp at hmem
    · rw [hr] at hmem ⊢
      obtain ⟨hfat, hnone⟩ := sc_waitfalse f w s hmem
      exact ⟨List.mem_append.mpr (Or.inr hfat), hnone⟩

theorem c1_witness :
    gatedAfter isSyncSuccess Event.isControllerRun
      (mainGo flagsStd envStd { worldStd with cacheSync := [true, false] }).1 false
      = true ∧
    (mainGo flagsStd envStd { worldStd with cacheSync := [true, false] }).1.all
      (fun ev => !ev.isControllerRun) = true ∧
    Event.fatal .cacheSync ∈
      (mainGo flagsStd envStd { worldStd with cacheSync := [true, false] }).1 :=
  ⟨(c1_controllers_gated_on_cache_sync flagsStd envStd
      { worldStd with cacheSync := [true, false] }).1,
   (c1_controllers_gated_on_cache_sync flagsStd envStd
      { worldStd with cacheSync := [true, false] }).2.1 (by decide),
   ((c1_controllers_gated_on_cache_sync flagsStd envStd
      { worldStd with cacheSync := [true, false] }).2.2 (by decide)).1⟩

/-- C2 counterexample: with capacity publishing enabled, ownerref level 1 and
POD_NAME unset (all other calls succeeding), the process still performs the
Probe, GetDriverName and GetDriverCapabilities RPCs and only afterwards exits
fatally on the missing POD_NAME: the fatal exit does not precede the RPCs. -/
theorem c2_counterexample :
    flagsStd.enableCapacity = true ∧ flagsStd.capacityOwnerrefLevel = 1 ∧
    ({ envStd with podName := "" } : Env).podName = "" ∧
    Event.fatal .podNameMissing ∈
      (mainGo flagsStd { envStd with podName := "" } worldStd).1 ∧
    noneBeforeFatal Event.isRpc
      (mainGo flagsStd { envStd with podName := "" } worldStd).1 = false := by
  decide

/-- C2 (amended): when capacity publishing is enabled with
capacityOwnerrefLevel = 1 and POD_NAME is unset, bootstrap always fails before
any controller is started (but only after the backend RPCs Probe,
GetDriverName and GetDriverCapabilities have already been issued). -/
theorem c2_amended_podname_fatal (f : Flags) (e : Env) (w : World)
    (hc : f.enableCapacity = true) (hl : f.capacityOwnerrefLevel = 1)
    (hp : e.podName = "") :
    (mainGo f e w).2 = none ∧
    (mainGo f e w).1.all (fun ev => !ev.isControllerRun) = true := by
  obtain ⟨t1, rest, heq, ⟨hboot, _, _⟩, hrest, _⟩ := mainGo_paths f e w
  have hrestnil : rest = ([], none) := by
    rcases hrest with hr | ⟨s, hr, hcc, hcond⟩
    · exact hr
    · obtain ⟨hns, hlv⟩ := hcond hc
      obtain ⟨hpod, _⟩ := hlv (by omega)
      exact absurd hp hpod
  rw [hrestnil] at heq
  refine ⟨by rw [heq], ?_⟩
  rw [heq]
  dsimp only
  rw [List.append_nil]
  exact all_mono (fun ev he => by simp [bootOnly_noctrl ev he]) hboot

theorem c2_amended_witness :
    (mainGo flagsStd { envStd with podName := "" } worldStd).2 = none ∧
    (mainGo flagsStd { envStd with podName := "" } worldStd).1.all
      (fun ev => !ev.isControllerRun) = true :=
  c2_amended_podname_fatal flagsStd { envStd with podName := "" } worldStd
    (by decide) (by decide) (by decide)

/-- C3: a negative ownerref level short-circuits owner resolution: POD_NAME is
never read, `owner.Lookup` is never called and any assembled state carries a
nil owner reference; for a non-negative level with capacity enabled, a missing
POD_NAME or a failed lookup prevents any steady state (fatal at startup), and
every assembled state carries a non-nil owner reference. -/
theorem c3_owner_resolution (f : Flags) (e : Env) (w : World) :
    (f.capacityOwnerrefLevel < 0 →
      Event.readPodName ∉ (mainGo f e w).1 ∧
      (mainGo f e w).1.all (fun ev => !ev.isOwnerEv) = true ∧
      (∀ s', (mainGo f e w).2 = some s' → s'.ownerRef = none)) ∧
    (f.enableCapacity = true → 0 ≤ f.capacityOwnerrefLevel →
      ((e.podName = "" ∨ w.ownerLookupResult = none) → (mainGo f e w).2 = none) ∧
      (∀ s', (mainGo f e w).2 = some s' → s'.ownerRef.isSome = true)) := by
  obtain ⟨t1, rest, heq, ⟨hboot, hh, ho⟩, hrest, _⟩ := mainGo_paths f e w
  constructor
  · intro hneg
    have hall : (mainGo f e w).1.all (fun ev => !ev.isOwnerEv) = true := by
      rw [heq]
      dsimp only
      rw [List.all_append]
      refine (Bool.and_eq_true _ _).mpr ⟨ho hneg, ?_⟩
      rcases hrest with hr | ⟨s, hr, _⟩
      · rw [hr]
        rfl
      · rw [hr]
        refine all_mono ?_ (support_stageCoordinate f w s)
        intro ev he
        cases ev <;> simp_all [lateEvent, Event.isOwnerEv]
    refine ⟨not_mem_of_all hall (by simp [Event.isOwnerEv]), hall, ?_⟩
    intro s' hs'
    obtain ⟨_, _, _, _, _, hor⟩ := mainGo_final f e w s' hs'
    exact hor (Or.inr hneg)
  · intro hcap hlv
    constructor
    · intro hbad
      cases hopt : (mainGo f e w).2 with
      | none => rfl
      | some s' =>
        obtain ⟨_, _, _, _, hcapc, _⟩ := mainGo_final f e w s' hopt
        obtain ⟨hns, hrest2⟩ := hcapc hcap
        obtain ⟨hpod, hlook, _⟩ := hrest2 hlv
        rcases hbad with hbad | hbad
        · exact absurd hbad hpod
        · rw [hbad] at hlook
          cases hlook
    · intro s' hs'
      obtain ⟨_, _, _, _, hcapc, _⟩ := mainGo_final f e w s' hs'
      obtain ⟨_, hrest2⟩ := hcapc hcap
      obtain ⟨_, hlook, hor⟩ := hrest2 hlv
      rw [hor]
      exact hlook

theorem c3_witness :
    (Event.readPodName ∉
      (mainGo { flagsStd with capacityOwnerrefLevel := -1 } envStd worldStd).1 ∧
     (mainGo { flagsStd with capacityOwnerrefLevel := -1 } envStd worldStd).1.all
      (fun ev => !ev.isOwnerEv) = true) ∧
    (mainGo flagsStd { envStd with podName := "" } worldStd).2 = none :=
  ⟨⟨((c3_owner_resolution { flagsStd with capacityOwnerrefLevel := -1 } envStd
        worldStd).1 (by decide)).1,
    ((c3_owner_resolution { flagsStd with capacityOwnerrefLevel := -1 } envStd
        worldStd).1 (by decide)).2.1⟩,
   ((c3_owner_resolution flagsStd { envStd with podName := "" } worldStd).2
      (by decide) (by decide)).1 (Or.inl (by decide))⟩


/-- C4: when the backend's plugin capabilities do not include topology support,
the node lister and CSINode lister in the assembled state remain nil, and the
provisioner is still constructed (`NewCSIProvisioner` has no error path): a
successful bootstrap emits the construction event regardless of topology. -/
theorem c4_no_topology_nil_listers (f : Flags) (e : Env) (w : World)
    (ht : w.supportsTopology = false) :
    (∀ s', (mainGo f e w).2 = some s' →
      s'.nodeListerCreated = false ∧ s'.csiNodeListerCreated = false) ∧
    (BootOk f e w → Event.newCSIProvisioner ∈ (mainGo f e w).1) := by
  constructor
  · intro s' hs'
    obtain ⟨_, hnode, hcsi, _, _, _⟩ := mainGo_final f e w s' hs'
    rw [hnode, hcsi, ht]
    exact ⟨rfl, rfl⟩
  · intro hb
    rw [mainGo_decomp f e w hb]
    dsimp only
    simp [bootEvents, List.mem_append]

theorem c4_witness :
    ({ vaListerCreated := false, nodeListerCreated := false,
       csiNodeListerCreated := false,
       ownerRef := some ⟨"apps/v1", "StatefulSet", "csi-hostpath"⟩,
       capacityControllerCreated := true } : FinalState).nodeListerCreated = false ∧
    Event.newCSIProvisioner ∈ (mainGo flagsStd envStd worldStd).1 :=
  ⟨((c4_no_topology_nil_listers flagsStd envStd worldStd rfl).1 _ (by decide)).1,
   (c4_no_topology_nil_listers flagsStd envStd worldStd rfl).2 (by decide)⟩

/-- C5: the VolumeAttachment lister is created iff the backend's controller
capabilities include PUBLISH_UNPUBLISH_VOLUME, and assembly never fails because
the capability is absent: any fully successful startup reaches a steady state
whose flag equals the capability bit. -/
theorem c5_vaLister_iff_publish (f : Flags) (e : Env) (w : World) :
    (∀ s', (mainGo f e w).2 = some s' →
      s'.vaListerCreated = w.supportsPublishUnpublish) ∧
    (RunOk f e w → (mainGo f e w).2.isSome = true) := by
  constructor
  · intro s' hs'
    exact (mainGo_final f e w s' hs').1
  · rintro ⟨hb, hsync, hle⟩
    rw [mainGo_decomp f e w hb]
    dsimp only
    rw [sc_success f w (assembledState f w) hsync hle]
    rfl

theorem c5_witness :
    (mainGo flagsStd envStd worldStd).2.isSome = true ∧
    ({ vaListerCreated := false, nodeListerCreated := false,
       csiNodeListerCreated := false,
       ownerRef := some ⟨"apps/v1", "StatefulSet", "csi-hostpath"⟩,
       capacityControllerCreated := true } : FinalState).vaListerCreated =
      worldStd.supportsPublishUnpublish :=
  ⟨(c5_vaLister_iff_publish flagsStd envStd worldStd).2
      ⟨by decide, by decide, by decide⟩,
   (c5_vaLister_iff_publish flagsStd envStd worldStd).1 _ (by decide)⟩

/-- C6: with leader election disabled, the run closure is invoked directly
(`leRun` never occurs, and a successful bootstrap starts the shared factory);
with leader election enabled, no controller starts before the hand-off to the
election primitive, no controller starts at all without leadership, and a
failure to create the leader-election clientset is fatal. -/
theorem c6_leader_election_gating (f : Flags) (e : Env) (w : World) :
    (f.enableLeaderElection = false →
      Event.leRun ∉ (mainGo f e w).1 ∧
      (BootOk f e w → Event.factoryStart ∈ (mainGo f e w).1)) ∧
    (f.enableLeaderElection = true →
      gatedAfter isLeRunEvent Event.isControllerRun (mainGo f e w).1 false = true ∧
      (w.leGrantsLeadership = false →
        (mainGo f e w).1.all (fun ev => !ev.isControllerRun) = true) ∧
      (BootOk f e w → w.leClientsetOk = false →
        Event.fatal .leClient ∈ (mainGo f e w).1 ∧ (mainGo f e w).2 = none)) := by
  obtain ⟨t1, rest, heq, ⟨hboot, _, _⟩, hrest, _⟩ := mainGo_paths f e w
  constructor
  · intro hle
    constructor
    · rw [heq]
      dsimp only
      intro hmem
      rw [List.mem_append] at hmem
      rcases hmem with hmem | hmem
      · exact absurd hmem (not_mem_of_all hboot (by simp [bootOnly]))
      · rcases hrest with hr | ⟨s, hr, _⟩
        · rw [hr] at hmem
          simp at hmem
        · rw [hr] at hmem
          exact absurd hmem (sc_leRun_not f w s hle)
    · intro hb
      rw [mainGo_decomp f e w hb]
      dsimp only
      have hf := sc_factory f w (assembledState f w) hle
      simp [List.mem_append, hf]
  · intro hle
    refine ⟨mainGo_leGated f e w hle, ?_, ?_⟩
    · intro hg
      rw [heq]
      dsimp only
      rw [List.all_append]
      refine (Bool.and_eq_true _ _).mpr
        ⟨all_mono (fun ev he => by simp [bootOnly_noctrl ev he]) hboot, ?_⟩
      rcases hrest with hr | ⟨s, hr, _⟩
      · rw [hr]
        rfl
      · rw [hr]
        exact sc_noctrl_nogrant f w s hle hg
    · intro hb hcl
      rw [mainGo_decomp f e w hb]
      dsimp only
      have hsc := sc_leClient_fatal f w (assembledState f w) hle hcl
      rw [hsc]
      exact ⟨by simp [List.mem_append], rfl⟩

theorem c6_witness :
    gatedAfter isLeRunEvent Event.isControllerRun
      (mainGo { flagsStd with enableLeaderElection := true } envStd
        { worldStd with leClientsetOk := false }).1 false = true ∧
    Event.fatal .leClient ∈
      (mainGo { flagsStd with enableLeaderElection := true } envStd
        { worldStd with leClientsetOk := false }).1 ∧
    (mainGo { flagsStd with enableLeaderElection := true } envStd
      { worldStd with leClientsetOk := false }).2 = none :=
  ⟨((c6_leader_election_gating { flagsStd with enableLeaderElection := true } envStd
      { worldStd with leClientsetOk := false }).2 (by decide)).1,
   (((c6_leader_election_gating { flagsStd with enableLeaderElection := true } envStd
      { worldStd with leClientsetOk := false }).2 (by decide)).2.2
      (by decide) (by decide)).1,
   (((c6_leader_election_gating { flagsStd with enableLeaderElection := true } envStd
      { worldStd with leClientsetOk := false }).2 (by decide)).2.2
      (by decide) (by decide)).2⟩


theorem mainGo_cases_early (f : Flags) (e : Env) (w : World) :
    (∃ r, mainGo f e w = ([Event.fatal r], none)) ∨
    mainGo f e w = ([Event.exitZero], none) ∨
    mainGo f e w = mainConnect f e w := by
  unfold mainGo
  repeat' split
  all_goals
    first
      | exact Or.inl ⟨_, rfl⟩
      | exact Or.inr (Or.inl rfl)
      | exact Or.inr (Or.inr rfl)

theorem cp_mainAfterName_notmig (f : Flags) (e : Env) (w : World)
    (hm : w.migrated = false) :
    countEv Event.isConnect (mainAfterName f e w).1 = 0 ∧
    countEv Event.isProbe (mainAfterName f e w).1 = 0 ∧
    Event.closeConn ∉ (mainAfterName f e w).1 ∧
    Event.recreateMetricsManager ∉ (mainAfterName f e w).1 := by
  unfold mainAfterName
  rw [if_neg (by simp [hm])]
  exact cp_zero_mainAfterMigration f e w

theorem cp_mainConnect_notmig (f : Flags) (e : Env) (w : World)
    (hm : w.migrated = false) :
    countEv Event.isConnect (mainConnect f e w).1 ≤ 1 ∧
    countEv Event.isProbe (mainConnect f e w).1 ≤ 1 ∧
    Event.closeConn ∉ (mainConnect f e w).1 ∧
    Event.recreateMetricsManager ∉ (mainConnect f e w).1 := by
  obtain ⟨hc0, hp0, hcc0, hrm0⟩ := cp_mainAfterName_notmig f e w hm
  unfold mainConnect
  repeat' split
  all_goals dsimp only
  all_goals
    refine ⟨?_, ?_, ?_, ?_⟩ <;>
      simp [countEv_append, countEv_cons, countEv_nil, Event.isConnect, Event.isProbe,
        hc0, hp0, hcc0, hrm0, List.mem_append, List.mem_cons]

theorem mainAfterName_fail_none (f : Flags) (e : Env) (w : World)
    (hm : w.migrated = true)
    (hbad : w.inTreeNameResult.isNone = true ∨ w.connect2Ok = false ∨
      w.probe2Ok = false) :
    (mainAfterName f e w).2 = none := by
  unfold mainAfterName
  rw [if_pos hm]
  by_cases hit : w.inTreeNameResult.isNone = true
  · rw [if_pos hit]
  · rw [if_neg hit]
    by_cases hc2 : w.connect2Ok = false
    · rw [if_pos hc2]
    · rw [if_neg hc2]
      by_cases hp2 : w.probe2Ok = false
      · rw [if_pos hp2]
      · rcases hbad with h | h | h
        · exact absurd h hit
        · exact absurd h hc2
        · exact absurd h hp2

/-- C7: when the probed driver name is not a migrated in-tree plugin, at most
one connection and one probe occur on every path (exactly one once the probe
phase succeeds) and the original connection is never closed nor the metrics
manager rebuilt; when it is migrated, a failure to obtain the in-tree name, to
reconnect or to re-probe is fatal, and on success the metrics manager is
rebuilt with the migrated label, the original connection is closed, and
exactly two connections and two probes occur. -/
theorem c7_migration_reconnect (f : Flags) (e : Env) (w : World) :
    (w.migrated = false →
      countEv Event.isConnect (mainGo f e w).1 ≤ 1 ∧
      countEv Event.isProbe (mainGo f e w).1 ≤ 1 ∧
      Event.closeConn ∉ (mainGo f e w).1 ∧
      Event.recreateMetricsManager ∉ (mainGo f e w).1 ∧
      (ProbeOk f e w →
        countEv Event.isConnect (mainGo f e w).1 = 1 ∧
        countEv Event.isProbe (mainGo f e w).1 = 1)) ∧
    (w.migrated = true → ProbeOk f e w →
      ((w.inTreeNameResult.isNone = true ∨ w.connect2Ok = false ∨
          w.probe2Ok = false) → (mainGo f e w).2 = none) ∧
      (w.inTreeNameResult.isNone = false → w.connect2Ok = true → w.probe2Ok = true →
        Event.recreateMetricsManager ∈ (mainGo f e w).1 ∧
        Event.closeConn ∈ (mainGo f e w).1 ∧
        countEv Event.isConnect (mainGo f e w).1 = 2 ∧
        countEv Event.isProbe (mainGo f e w).1 = 2)) := by
  constructor
  · intro hm
    obtain ⟨ha0, hp0, hcc0, hrm0⟩ := cp_mainAfterName_notmig f e w hm
    refine ⟨?_, ?_, ?_, ?_, ?_⟩
    case _ | _ | _ | _ =>
      rcases mainGo_cases_early f e w with ⟨r, hr⟩ | hr | hr <;> rw [hr]
      all_goals
        first
          | simp [countEv_cons, countEv_nil, Event.isConnect, Event.isProbe]
          | (obtain ⟨h1, h2, h3, h4⟩ := cp_mainConnect_notmig f e w hm
             first
               | exact h1
               | exact h2
               | exact h3
               | exact h4)
    intro hpo
    rw [mainGo_probeOk f e w hpo]
    dsimp only
    constructor <;>
      simp [countEv_append, countEv_cons, countEv_nil, Event.isConnect, Event.isProbe,
        ha0, hp0]
  · intro hm hpo
    constructor
    · intro hbad
      rw [mainGo_probeOk f e w hpo]
      exact mainAfterName_fail_none f e w hm hbad
    · intro hit hc2 hp2
      rw [mainGo_probeOk f e w hpo]
      dsimp only
      have heqn : mainAfterName f e w =
          ([Event.recreateMetricsManager, Event.connect, Event.closeConn, Event.probe]
            ++ (mainAfterMigration f e w).1, (mainAfterMigration f e w).2) := by
        unfold mainAfterName
        rw [if_pos hm, if_neg (by simp [hit]), if_neg (by simp [hc2]),
          if_neg (by simp [hp2])]
      obtain ⟨ha0, hp0, hcc0, hrm0⟩ := cp_zero_mainAfterMigration f e w
      rw [heqn]
      dsimp only
      refine ⟨?_, ?_, ?_, ?_⟩ <;>
        simp [countEv_append, countEv_cons, countEv_nil, Event.isConnect,
          Event.isProbe, ha0, hp0, List.mem_append, List.mem_cons]

theorem c7_witness :
    Event.recreateMetricsManager ∈
      (mainGo flagsStd envStd
        { worldStd with
            migrated := true
            driverName := some "ebs.csi.aws.com"
            inTreeNameResult := some "kubernetes.io/aws-ebs" }).1 ∧
    countEv Event.isConnect
      (mainGo flagsStd envStd
        { worldStd with
            migrated := true
            driverName := some "ebs.csi.aws.com"
            inTreeNameResult := some "kubernetes.io/aws-ebs" }).1 = 2 :=
  ⟨(((c7_migration_reconnect flagsStd envStd
      { worldStd with
          migrated := true
          driverName := some "ebs.csi.aws.com"
          inTreeNameResult := some "kubernetes.io/aws-ebs" }).2 (by decide)
      (by decide)).2 (by decide) (by decide) (by decide)).1,
   (((c7_migration_reconnect flagsStd envStd
      { worldStd with
          migrated := true
          driverName := some "ebs.csi.aws.com"
          inTreeNameResult := some "kubernetes.io/aws-ebs" }).2 (by decide)
      (by decide)).2 (by decide) (by decide) (by decide)).2.2.1⟩

/-- C8 counterexample: with neither `--metrics-address` nor `--http-endpoint`
set and everything else healthy, the process does not abort: it reaches a
steady state with no fatal event and the provision controller running, so
"configuring neither also aborts" is false on the code. -/
theorem c8_counterexample :
    ({ flagsStd with httpEndpoint := "" } : Flags).metricsAddress = "" ∧
    ({ flagsStd with httpEndpoint := "" } : Flags).httpEndpoint = "" ∧
    (mainGo { flagsStd with httpEndpoint := "" } envStd worldStd).2.isSome = true ∧
    (mainGo { flagsStd with httpEndpoint := "" } envStd worldStd).1.all
      (fun ev => !ev.isFatal) = true ∧
    Event.runProvisionController ∈
      (mainGo { flagsStd with httpEndpoint := "" } envStd worldStd).1 := by
  decide

/-- C8 (amended): configuring both diagnostic endpoints is a fatal
configuration error that aborts before any controller starts (an immediate
exit once the earlier feature-gate/NODE_NAME/version checks pass), while
configuring neither merely disables the diagnostic HTTP server and is not
fatal. -/
theorem c8_amended_endpoints (f : Flags) (e : Env) (w : World) :
    (f.metricsAddress ≠ "" → f.httpEndpoint ≠ "" →
      (mainGo f e w).2 = none ∧
      (mainGo f e w).1.all (fun ev => !ev.isControllerRun) = true ∧
      (w.featureGatesOk = true → ¬(f.enableNodeDeployment = true ∧ e.nodeName = "") →
        f.showVersion = false →
        mainGo f e w = ([Event.fatal .bothEndpoints], none))) ∧
    (f.metricsAddress = "" → f.httpEndpoint = "" →
      Event.startHTTPServer ∉ (mainGo f e w).1) := by
  obtain ⟨t1, rest, heq, ⟨hboot, hh, _⟩, hrest, hboth⟩ := mainGo_paths f e w
  constructor
  · intro hm hhe
    have hrnil := hboth ⟨hm, hhe⟩
    rw [hrnil] at heq
    refine ⟨by rw [heq], ?_,
      fun hfg hnn hsv => mainGo_both_fatal f e w hfg hnn hsv ⟨hm, hhe⟩⟩
    rw [heq]
    dsimp only
    rw [List.append_nil]
    exact all_mono (fun ev he => by simp [bootOnly_noctrl ev he]) hboot
  · intro hm hhe
    rw [heq]
    dsimp only
    intro hmem
    rw [List.mem_append] at hmem
    rcases hmem with hmem | hmem
    · exact absurd hmem (hh ⟨hm, hhe⟩)
    · rcases hrest with hr | ⟨s, hr, _⟩
      · rw [hr] at hmem
        simp at hmem
      · rw [hr] at hmem
        exact absurd (List.all_eq_true.mp (support_stageCoordinate f w s) _ hmem)
          (by simp [lateEvent])

theorem c8_amended_witness :
    mainGo { flagsStd with metricsAddress := ":9090" } envStd worldStd =
      ([Event.fatal .bothEndpoints], none) ∧
    Event.startHTTPServer ∉
      (mainGo { flagsStd with httpEndpoint := "" } envStd worldStd).1 :=
  ⟨((c8_amended_endpoints { flagsStd with metricsAddress := ":9090" } envStd
      worldStd).1 (by decide) (by decide)).2.2 (by decide) (by decide) (by decide),
   (c8_amended_endpoints { flagsStd with httpEndpoint := "" } envStd worldStd).2
      (by decide) (by decide)⟩

/-- C9: the leader-election health check is registered only when
`--http-endpoint` is non-empty and leader election is enabled; when diagnostics
are served via the deprecated `--metrics-address` with leader election
enabled, the HTTP server starts and the election hand-off happens, but no
health check is registered. -/
theorem c9_healthcheck_gating (f : Flags) (e : Env) (w : World) :
    (Event.prepareHealthCheck ∈ (mainGo f e w).1 →
      f.httpEndpoint ≠ "" ∧ f.enableLeaderElection = true) ∧
    (f.metricsAddress ≠ "" → f.enableLeaderElection = true → BootOk f e w →
      w.leClientsetOk = true →
      Event.startHTTPServer ∈ (mainGo f e w).1 ∧
      Event.leRun ∈ (mainGo f e w).1 ∧
      Event.prepareHealthCheck ∉ (mainGo f e w).1) := by
  obtain ⟨t1, rest, heq, ⟨hboot, _, _⟩, hrest, _⟩ := mainGo_paths f e w
  have hnotprep : (f.httpEndpoint = "" ∨ f.enableLeaderElection = false) →
      Event.prepareHealthCheck ∉ (mainGo f e w).1 := by
    intro hc
    rw [heq]
    dsimp only
    intro hmem
    rw [List.mem_append] at hmem
    rcases hmem with hmem | hmem
    · exact absurd hmem (not_mem_of_all hboot (by simp [bootOnly]))
    · rcases hrest with hr | ⟨s, hr, _⟩
      · rw [hr] at hmem
        simp at hmem
      · rw [hr] at hmem
        exact absurd hmem (sc_prepHC_not f w s hc)
  constructor
  · intro hmem
    constructor
    · intro hhe
      exact absurd hmem (hnotprep (Or.inl hhe))
    · by_contra hle
      refine absurd hmem (hnotprep (Or.inr ?_))
      cases hle2 : f.enableLeaderElection
      · rfl
      · exact absurd hle2 hle
  · intro hm hle hb hcl
    have hhe : f.httpEndpoint = "" := by
      obtain ⟨⟨⟨_, _, _, hep, _⟩, _, _, _⟩, _⟩ := hb
      by_contra hne
      exact hep ⟨hm, hne⟩
    refine ⟨?_, ?_, hnotprep (Or.inl hhe)⟩
    · rw [mainGo_decomp f e w hb]
      dsimp only
      have hev : httpEvents f = [Event.startHTTPServer] := by
        unfold httpEvents
        rw [if_neg hm, if_neg hm]
      rw [hev]
      simp [List.mem_append]
    · rw [mainGo_decomp f e w hb]
      dsimp only
      have hlr := sc_leRun_mem f w (assembledState f w) hle hcl
      simp [List.mem_append, hlr]

def flagsC9 : Flags :=
  { flagsStd with
      metricsAddress := ":9090"
      httpEndpoint := ""
      enableLeaderElection := true }

theorem c9_witness :
    Event.startHTTPServer ∈ (mainGo flagsC9 envStd worldStd).1 ∧
    Event.leRun ∈ (mainGo flagsC9 envStd worldStd).1 ∧
    Event.prepareHealthCheck ∉ (mainGo flagsC9 envStd worldStd).1 :=
  (c9_healthcheck_gating flagsC9 envStd worldStd).2
    (by decide) (by decide) (by decide) (by decide)

/-- C10: with capacity publishing enabled and node deployment disabled, a
successful bootstrap always constructs the live node-topology informer and
starts its worker (the `startTopologyWorker true` event), independently of the
backend's topology capability, and the capacity controller is built. -/
theorem c10_live_topology_regardless (f : Flags) (e : Env) (w : World)
    (hc : f.enableCapacity = true) (hn : f.enableNodeDeployment = false)
    (hb : BootOk f e w) :
    Event.startTopologyWorker true ∈ (mainGo f e w).1 ∧
    (∀ s', (mainGo f e w).2 = some s' → s'.capacityControllerCreated = true) := by
  constructor
  · rw [mainGo_decomp f e w hb]
    dsimp only
    have hcap : Event.startTopologyWorker true ∈ capEvents f := by
      unfold capEvents
      rw [if_pos hc]
      refine List.mem_append.mpr (Or.inr ?_)
      rw [hn]
      simp
    simp [List.mem_append, hcap]
  · intro s' hs'
    obtain ⟨_, _, _, hcc, _, _⟩ := mainGo_final f e w s' hs'
    rw [hcc, hc]

theorem c10_witness :
    Event.startTopologyWorker true ∈ (mainGo flagsStd envStd worldStd).1 ∧
    worldStd.supportsTopology = false :=
  ⟨(c10_live_topology_regardless flagsStd envStd worldStd (by decide) (by decide)
      (by decide)).1,
   by decide⟩

end Provisioner
